import Mathlib

/-!
# drone-slack: `plugin/impl.go`

A shallow embedding of the plugin implementation (`Validate`, `Execute`,
`detectRef`, `templateMessage`, `message`, `fallback`, `color`, `prepend`)
and theorems about it.

Conventions of the embedding.

* A Go `string` is a finite sequence of bytes: `GoString = List UInt8`.
  `len(s)` is `s.length`, `s == ""` is `s = []`, `s[:8]` is `s.take 8` and
  is out of range (a run-time panic) when `len(s) < 8`.
  String literals of the source are written `lit "..."` (their UTF-8 bytes).
* A Go `error` value is a `GoError`; a `nil` error is `none`.
* A function that can panic returns `Option`: `none` is the panic.
* The three collaborators that live outside the repository
  (`template.RenderTrim`, `ioutil.ReadFile`,
  `slack.PostWebhookCustomHTTPContext`) are the fields of `Env`.
* `Plugin.Execute` returns, next to what the Go function returns, the
  receiver's settings and the local variables `attachment` and `msg` at the
  moment it stops, and the sequence of collaborator calls it made.
* The `logrus` calls write log lines only; they read the variables and
  change neither them nor the control flow, and are left out.
-/

namespace DroneSlack

/-! ## Strings and errors -/

abbrev GoString := List UInt8

/-- The bytes of a string literal of the source. -/
def lit (s : String) : GoString := s.toUTF8.data.toList

/-- Go error values: `errors.New(msg)` (also standing for an error of a
collaborator whose message is `msg`) and `fmt.Errorf(pre + "%w", inner)`. -/
inductive GoError where
  | new (msg : GoString)
  | wrapf (pre : GoString) (inner : GoError)
deriving DecidableEq, Repr

/-- The method `Error()` of an error value. -/
def GoError.Error : GoError → GoString
  | .new msg => msg
  | .wrapf pre inner => pre ++ inner.Error

/-- The function `errors.Unwrap`. -/
def GoError.Unwrap : GoError → Option GoError
  | .new _ => none
  | .wrapf _ inner => some inner

/-- The function `strings.HasPrefix(s, pfx)`. -/
def HasPrefix (s pfx : GoString) : Bool := pfx.isPrefixOf s

/-- The function `fmt.Sprintf` on the fragment the program uses: string
operands, the verb `%s`, and `%%`. Every other byte of the format is copied.
`none` stands for a call outside the fragment (another verb, or a number of
operands that differs from the number of verbs). -/
def Sprintf : GoString → List GoString → Option GoString
  | [], args => if args = [] then some [] else none
  | c :: rest, args =>
    if c ≠ 37 then (Sprintf rest args).map (fun out => c :: out)
    else
      match rest, args with
      | v :: rest2, a :: args2 =>
        if v = 115 then (Sprintf rest2 args2).map (fun out => a ++ out)
        else if v = 37 then (Sprintf rest2 (a :: args2)).map (fun out => 37 :: out)
        else none
      | v :: rest2, [] =>
        if v = 37 then (Sprintf rest2 []).map (fun out => 37 :: out) else none
      | [], _ => none

/-! ## Data model -/

/-- Settings for the plugin (lines 20-35). -/
structure Settings where
  Webhook : GoString
  Channel : GoString
  Recipient : GoString
  Username : GoString
  Template : GoString
  TemplateFile : GoString
  Fallback : GoString
  ImageURL : GoString
  IconURL : GoString
  IconEmoji : GoString
  Color : GoString
deriving DecidableEq, Repr

/-- The fields of `drone.Build` that the program reads. -/
structure Build where
  Status : GoString
  Link : GoString
  Branch : GoString
  Tag : GoString
deriving DecidableEq, Repr

/-- The fields of `drone.Repo` that the program reads. -/
structure Repo where
  Owner : GoString
  Name : GoString
deriving DecidableEq, Repr

/-- The fields of `drone.Commit` that the program reads. -/
structure Commit where
  SHA : GoString
  Author : GoString
deriving DecidableEq, Repr

/-- The records of `drone.Pipeline` that the program reads. -/
structure Pipeline where
  Build : Build
  Repo : Repo
  Commit : Commit
deriving DecidableEq, Repr

/-- The fields of `slack.Attachment` that the program sets; every other
field keeps its zero value. -/
structure Attachment where
  Color : GoString
  Fallback : GoString
  Text : GoString
  ImageURL : GoString
  MarkdownIn : List GoString
deriving DecidableEq, Repr

/-- The fields of `slack.WebhookMessage` that the program sets. -/
structure WebhookMessage where
  Username : GoString
  IconEmoji : GoString
  IconURL : GoString
  Channel : GoString
  Attachments : List Attachment
deriving DecidableEq, Repr

/-- The receiver of `Validate` and `Execute`: its settings and pipeline. -/
structure Plugin where
  settings : Settings
  pipeline : Pipeline
deriving DecidableEq, Repr

/-- The collaborators outside the repository. `RenderTrim` and `ReadFile`
return a value and an error as in Go; `PostWebhook` takes the webhook URL and
the message (the context and the HTTP client of `p.network` are part of the
collaborator). -/
structure Env where
  RenderTrim : GoString → Pipeline → GoString × Option GoError
  ReadFile : GoString → GoString × Option GoError
  PostWebhook : GoString → WebhookMessage → Option GoError

/-- A call of a collaborator. -/
inductive Event where
  | render (t : GoString)
  | read (path : GoString)
  | post (url : GoString) (msg : WebhookMessage)
deriving DecidableEq, Repr

/-- How a call of `Execute` stops: it returns an error value (`none` is
`nil`), or it panics. -/
inductive Outcome where
  | returned (err : Option GoError)
  | panicked
deriving DecidableEq, Repr

/-- What a call of `Execute` leaves behind. -/
structure ExecResult where
  settings : Settings
  attachment : Attachment
  msg : Option WebhookMessage
  trace : List Event
  ret : Outcome
deriving DecidableEq, Repr

/-! ## The functions of `impl.go` -/

/-- Lines 37-44. The first component is the receiver after the call. -/
def Plugin.Validate (p : Plugin) : Plugin × Option GoError :=
  if p.settings.Webhook = [] then
    (p, some (GoError.new (lit "missing webhook")))
  else
    (p, none)

/-- Lines 120-126. `none` is the out-of-range panic of `commit.SHA[:8]`. -/
def detectRef (build : Build) (commit : Commit) : Option GoString :=
  if commit.SHA ≠ [] then
    if 8 ≤ commit.SHA.length then some (commit.SHA.take 8) else none
  else
    some build.Tag

/-- Lines 128-130. -/
def templateMessage (env : Env) (t : GoString) (p : Pipeline) : GoString × Option GoError :=
  env.RenderTrim t p

/-- Lines 132-142. `none` is the panic of `detectRef`; on this format and
seven operands `Sprintf` returns a value (`message_of_ref`). -/
def message (p : Pipeline) : Option GoString :=
  match detectRef p.Build p.Commit with
  | none => none
  | some ref =>
    Sprintf (lit "*%s* <%s|%s/%s#%s> (%s) by %s")
      [p.Build.Status, p.Build.Link, p.Repo.Owner, p.Repo.Name, ref, p.Build.Branch,
        p.Commit.Author]

/-- Lines 144-153. `none` is the panic of `detectRef`; on this format and
six operands `Sprintf` returns a value (`fallback_of_ref`). -/
def fallback (p : Pipeline) : Option GoString :=
  match detectRef p.Build p.Commit with
  | none => none
  | some ref =>
    Sprintf (lit "%s %s/%s#%s (%s) by %s")
      [p.Build.Status, p.Repo.Owner, p.Repo.Name, ref, p.Build.Branch, p.Commit.Author]

/-- Lines 155-164. -/
def color (build : Build) : GoString :=
  if build.Status = lit "success" then lit "good"
  else if build.Status = lit "failure" ∨ build.Status = lit "error"
      ∨ build.Status = lit "killed" then lit "danger"
  else lit "warning"

/-- Lines 166-172. -/
def prepend (pfx s : GoString) : GoString :=
  if !HasPrefix s pfx then pfx ++ s else s

/-- Lines 46-118. The comments give the lines of the source each part embeds.
The attachment is a struct value: the slice literal of line 69 holds a copy
of it as it is at that line, and the assignments to `attachment.Text` of lines
96 and 104 change the local variable only. -/
def Plugin.Execute (env : Env) (p : Plugin) : ExecResult :=
  -- lines 48-52
  let attachment0 : Attachment :=
    { Color := p.settings.Color
      Fallback := []
      Text := []
      ImageURL := p.settings.ImageURL
      MarkdownIn := [lit "text", lit "fallback"] }
  -- lines 53-55
  let attachment1 : Attachment :=
    if p.settings.Color = [] then { attachment0 with Color := color p.pipeline.Build }
    else attachment0
  -- lines 57-65: the fallback text, or the way the call stops there
  let stage1 : (Attachment × Outcome) ⊕ Attachment :=
    if p.settings.Fallback ≠ [] then
      match templateMessage env p.settings.Fallback p.pipeline with
      | (_, some err) =>
        .inl (attachment1, .returned (some (.wrapf (lit "could not create fallback message: ") err)))
      | (f, none) => .inr { attachment1 with Fallback := f }
    else
      match fallback p.pipeline with
      | none => .inl (attachment1, .panicked)
      | some f => .inr { attachment1 with Fallback := f }
  let trace1 : List Event :=
    if p.settings.Fallback ≠ [] then [.render p.settings.Fallback] else []
  match stage1 with
  | .inl (attachment, out) =>
    { settings := p.settings, attachment := attachment, msg := none, trace := trace1, ret := out }
  | .inr attachment2 =>
    -- lines 67-72
    let msg0 : WebhookMessage :=
      { Username := p.settings.Username
        Attachments := [attachment2]
        IconURL := p.settings.IconURL
        IconEmoji := p.settings.IconEmoji
        Channel := [] }
    -- lines 74-78
    let msg : WebhookMessage :=
      if p.settings.Recipient ≠ [] then
        { msg0 with Channel := prepend (lit "@") p.settings.Recipient }
      else if p.settings.Channel ≠ [] then
        { msg0 with Channel := prepend (lit "#") p.settings.Channel }
      else msg0
    -- lines 80-89: the settings after the template file is loaded, or the read error
    let stage2 : GoError ⊕ Settings :=
      if p.settings.TemplateFile ≠ [] then
        match env.ReadFile p.settings.TemplateFile with
        | (_, some err) => .inl (.wrapf (lit "could not read template file: ") err)
        | (data, none) => .inr { p.settings with Template := data }
      else .inr p.settings
    let trace2 : List Event :=
      if p.settings.TemplateFile ≠ [] then trace1 ++ [.read p.settings.TemplateFile]
      else trace1
    match stage2 with
    | .inl err =>
      { settings := p.settings, attachment := attachment2, msg := some msg, trace := trace2,
        ret := .returned (some err) }
    | .inr settings =>
      -- lines 91-105
      if settings.Template ≠ [] then
        match templateMessage env settings.Template p.pipeline with
        | (text, some err) =>
          { settings := settings, attachment := { attachment2 with Text := text },
            msg := some msg, trace := trace2 ++ [.render settings.Template],
            ret := .returned (some (.wrapf (lit "could not create template message: ") err)) }
        | (text, none) =>
          -- lines 112-117
          { settings := settings, attachment := { attachment2 with Text := text },
            msg := some msg,
            trace := trace2 ++ [.render settings.Template, .post settings.Webhook msg],
            ret :=
              match env.PostWebhook settings.Webhook msg with
              | some err => .returned (some (.wrapf (lit "could not send webhook: ") err))
              | none => .returned none }
      else
        match message p.pipeline with
        | none =>
          { settings := settings, attachment := attachment2, msg := some msg, trace := trace2,
            ret := .panicked }
        | some text =>
          -- lines 112-117
          { settings := settings, attachment := { attachment2 with Text := text },
            msg := some msg, trace := trace2 ++ [.post settings.Webhook msg],
            ret :=
              match env.PostWebhook settings.Webhook msg with
              | some err => .returned (some (.wrapf (lit "could not send webhook: ") err))
              | none => .returned none }


/-! ## The parts of `Execute`

The same expressions as in `Plugin.Execute`, under names of their own, so
that each part can be reasoned about separately (`Execute_eq_staged`). -/

/-- The local variable `attachment` after line 55. -/
def Execute.attachment1 (p : Plugin) : Attachment :=
  let attachment0 : Attachment :=
    { Color := p.settings.Color
      Fallback := []
      Text := []
      ImageURL := p.settings.ImageURL
      MarkdownIn := [lit "text", lit "fallback"] }
  if p.settings.Color = [] then { attachment0 with Color := color p.pipeline.Build }
  else attachment0

/-- Lines 57-65: the attachment with its fallback text, or the attachment and
the way the call stops. -/
def Execute.stage1 (env : Env) (p : Plugin) : (Attachment × Outcome) ⊕ Attachment :=
  if p.settings.Fallback ≠ [] then
    match templateMessage env p.settings.Fallback p.pipeline with
    | (_, some err) =>
      .inl (Execute.attachment1 p,
        .returned (some (.wrapf (lit "could not create fallback message: ") err)))
    | (f, none) => .inr { Execute.attachment1 p with Fallback := f }
  else
    match fallback p.pipeline with
    | none => .inl (Execute.attachment1 p, .panicked)
    | some f => .inr { Execute.attachment1 p with Fallback := f }

/-- The collaborator calls of lines 57-65. -/
def Execute.trace1 (p : Plugin) : List Event :=
  if p.settings.Fallback ≠ [] then [.render p.settings.Fallback] else []

/-- Lines 67-78: the local variable `msg`, built from the attachment as it is
at line 69. -/
def Execute.msg (p : Plugin) (attachment2 : Attachment) : WebhookMessage :=
  let msg0 : WebhookMessage :=
    { Username := p.settings.Username
      Attachments := [attachment2]
      IconURL := p.settings.IconURL
      IconEmoji := p.settings.IconEmoji
      Channel := [] }
  if p.settings.Recipient ≠ [] then
    { msg0 with Channel := prepend (lit "@") p.settings.Recipient }
  else if p.settings.Channel ≠ [] then
    { msg0 with Channel := prepend (lit "#") p.settings.Channel }
  else msg0

/-- Lines 80-89: the settings after the template file is loaded, or the read
error. -/
def Execute.stage2 (env : Env) (p : Plugin) : GoError ⊕ Settings :=
  if p.settings.TemplateFile ≠ [] then
    match env.ReadFile p.settings.TemplateFile with
    | (_, some err) => .inl (.wrapf (lit "could not read template file: ") err)
    | (data, none) => .inr { p.settings with Template := data }
  else .inr p.settings

/-- The collaborator calls of lines 57-89. -/
def Execute.trace2 (p : Plugin) : List Event :=
  if p.settings.TemplateFile ≠ [] then Execute.trace1 p ++ [.read p.settings.TemplateFile]
  else Execute.trace1 p

/-- Lines 112-117: what `Execute` returns once the message is posted. -/
def Execute.send (env : Env) (settings : Settings) (msg : WebhookMessage) : Outcome :=
  match env.PostWebhook settings.Webhook msg with
  | some err => .returned (some (.wrapf (lit "could not send webhook: ") err))
  | none => .returned none

/-- Lines 91-117, from the attachment of line 65 and the settings of line 89. -/
def Execute.stage3 (env : Env) (p : Plugin) (attachment2 : Attachment) (settings : Settings) :
    ExecResult :=
  if settings.Template ≠ [] then
    match templateMessage env settings.Template p.pipeline with
    | (text, some err) =>
      { settings := settings, attachment := { attachment2 with Text := text },
        msg := some (Execute.msg p attachment2),
        trace := Execute.trace2 p ++ [.render settings.Template],
        ret := .returned (some (.wrapf (lit "could not create template message: ") err)) }
    | (text, none) =>
      { settings := settings, attachment := { attachment2 with Text := text },
        msg := some (Execute.msg p attachment2),
        trace := Execute.trace2 p ++
          [.render settings.Template, .post settings.Webhook (Execute.msg p attachment2)],
        ret := Execute.send env settings (Execute.msg p attachment2) }
  else
    match message p.pipeline with
    | none =>
      { settings := settings, attachment := attachment2,
        msg := some (Execute.msg p attachment2), trace := Execute.trace2 p, ret := .panicked }
    | some text =>
      { settings := settings, attachment := { attachment2 with Text := text },
        msg := some (Execute.msg p attachment2),
        trace := Execute.trace2 p ++ [.post settings.Webhook (Execute.msg p attachment2)],
        ret := Execute.send env settings (Execute.msg p attachment2) }

/-- The function `Plugin.Execute` put together from its parts. -/
def Execute.staged (env : Env) (p : Plugin) : ExecResult :=
  match Execute.stage1 env p with
  | .inl (attachment, out) =>
    { settings := p.settings, attachment := attachment, msg := none,
      trace := Execute.trace1 p, ret := out }
  | .inr attachment2 =>
    match Execute.stage2 env p with
    | .inl err =>
      { settings := p.settings, attachment := attachment2,
        msg := some (Execute.msg p attachment2), trace := Execute.trace2 p,
        ret := .returned (some err) }
    | .inr settings => Execute.stage3 env p attachment2 settings

/-- The calls of the webhook sender in a trace, in order. -/
def posts : List Event → List (GoString × WebhookMessage)
  | [] => []
  | .post url msg :: rest => (url, msg) :: posts rest
  | _ :: rest => posts rest

/-! ## The paths through `Execute` -/

/-- The fallback text of lines 57-65 when the call gets past them. -/
inductive FallbackText (env : Env) (p : Plugin) : GoString → Prop
  | rendered (f : GoString) :
      p.settings.Fallback ≠ [] →
      env.RenderTrim p.settings.Fallback p.pipeline = (f, none) → FallbackText env p f
  | default (f : GoString) :
      p.settings.Fallback = [] → fallback p.pipeline = some f → FallbackText env p f

/-- The settings after lines 80-89 when the call gets past them. -/
inductive LoadedSettings (env : Env) (p : Plugin) : Settings → Prop
  | file (data : GoString) :
      p.settings.TemplateFile ≠ [] →
      env.ReadFile p.settings.TemplateFile = (data, none) →
      LoadedSettings env p { p.settings with Template := data }
  | inline : p.settings.TemplateFile = [] → LoadedSettings env p p.settings

/-- The seven ways through `Execute`, each with the conditions under which it
is taken and what the call leaves behind. -/
inductive ExecPath (env : Env) (p : Plugin) : ExecResult → Prop
  | fallbackRenderError (x : GoString) (e : GoError) :
      p.settings.Fallback ≠ [] →
      env.RenderTrim p.settings.Fallback p.pipeline = (x, some e) →
      ExecPath env p
        { settings := p.settings, attachment := Execute.attachment1 p, msg := none,
          trace := Execute.trace1 p,
          ret := .returned (some (.wrapf (lit "could not create fallback message: ") e)) }
  | fallbackPanic :
      p.settings.Fallback = [] → fallback p.pipeline = none →
      ExecPath env p
        { settings := p.settings, attachment := Execute.attachment1 p, msg := none,
          trace := Execute.trace1 p, ret := .panicked }
  | readError (f x : GoString) (e : GoError) :
      FallbackText env p f →
      p.settings.TemplateFile ≠ [] →
      env.ReadFile p.settings.TemplateFile = (x, some e) →
      ExecPath env p
        { settings := p.settings, attachment := { Execute.attachment1 p with Fallback := f },
          msg := some (Execute.msg p { Execute.attachment1 p with Fallback := f }),
          trace := Execute.trace2 p,
          ret := .returned (some (.wrapf (lit "could not read template file: ") e)) }
  | renderError (f : GoString) (s : Settings) (text : GoString) (e : GoError) :
      FallbackText env p f → LoadedSettings env p s →
      s.Template ≠ [] →
      env.RenderTrim s.Template p.pipeline = (text, some e) →
      ExecPath env p
        { settings := s,
          attachment := { Execute.attachment1 p with Fallback := f, Text := text },
          msg := some (Execute.msg p { Execute.attachment1 p with Fallback := f }),
          trace := Execute.trace2 p ++ [.render s.Template],
          ret := .returned (some (.wrapf (lit "could not create template message: ") e)) }
  | sentTemplate (f : GoString) (s : Settings) (text : GoString) :
      FallbackText env p f → LoadedSettings env p s →
      s.Template ≠ [] →
      env.RenderTrim s.Template p.pipeline = (text, none) →
      ExecPath env p
        { settings := s,
          attachment := { Execute.attachment1 p with Fallback := f, Text := text },
          msg := some (Execute.msg p { Execute.attachment1 p with Fallback := f }),
          trace := Execute.trace2 p ++ [.render s.Template,
            .post s.Webhook (Execute.msg p { Execute.attachment1 p with Fallback := f })],
          ret := Execute.send env s (Execute.msg p { Execute.attachment1 p with Fallback := f }) }
  | messagePanic (f : GoString) (s : Settings) :
      FallbackText env p f → LoadedSettings env p s →
      s.Template = [] → message p.pipeline = none →
      ExecPath env p
        { settings := s, attachment := { Execute.attachment1 p with Fallback := f },
          msg := some (Execute.msg p { Execute.attachment1 p with Fallback := f }),
          trace := Execute.trace2 p, ret := .panicked }
  | sentDefault (f : GoString) (s : Settings) (text : GoString) :
      FallbackText env p f → LoadedSettings env p s →
      s.Template = [] → message p.pipeline = some text →
      ExecPath env p
        { settings := s,
          attachment := { Execute.attachment1 p with Fallback := f, Text := text },
          msg := some (Execute.msg p { Execute.attachment1 p with Fallback := f }),
          trace := Execute.trace2 p ++
            [.post s.Webhook (Execute.msg p { Execute.attachment1 p with Fallback := f })],
          ret := Execute.send env s (Execute.msg p { Execute.attachment1 p with Fallback := f }) }

/-! ## Example data -/

/-- Collaborators for the examples: a template renders to itself, no file can
be read, and posting succeeds. -/
def exampleEnv : Env :=
  { RenderTrim := fun t _ => (t, none)
    ReadFile := fun _ => ([], some (.new (lit "no such file")))
    PostWebhook := fun _ _ => none }

/-- Collaborators for the examples: every file holds the template
`{{build.status}}` (its braces are written as `\x7b` and `\x7d`), which renders
to the build status; the template `{{` does not render; any other template
renders to itself; posting succeeds. -/
def exampleFileEnv : Env :=
  { RenderTrim := fun t pl =>
      if t = lit "\x7b\x7bbuild.status\x7d\x7d" then (pl.Build.Status, none)
      else if t = lit "\x7b\x7b" then ([], some (.new (lit "parse error")))
      else (t, none)
    ReadFile := fun _ => (lit "\x7b\x7bbuild.status\x7d\x7d", none)
    PostWebhook := fun _ _ => none }

/-- Settings with a webhook only. -/
def exampleSettings : Settings :=
  { Webhook := lit "http://hook", Channel := [], Recipient := [], Username := [],
    Template := [], TemplateFile := [], Fallback := [], ImageURL := [], IconURL := [],
    IconEmoji := [], Color := [] }

/-- The pipeline of the example of the specification. -/
def examplePipeline : Pipeline :=
  { Build := { Status := lit "success", Link := lit "http://x", Branch := lit "main", Tag := [] }
    Repo := { Owner := lit "o", Name := lit "r" }
    Commit := { SHA := lit "abcdef1234", Author := lit "Al" } }

/-- Collaborators for the examples: no file can be read, the template `{{`
does not render, any other template renders to itself, posting succeeds. -/
def exampleFailEnv : Env :=
  { RenderTrim := fun t _ =>
      if t = lit "\x7b\x7b" then ([], some (.new (lit "parse error"))) else (t, none)
    ReadFile := fun _ => ([], some (.new (lit "no such file")))
    PostWebhook := fun _ _ => none }

/-- Collaborators for the examples: as `exampleEnv`, but posting fails. -/
def exampleSendFailEnv : Env :=
  { RenderTrim := fun t _ => (t, none)
    ReadFile := fun _ => ([], some (.new (lit "no such file")))
    PostWebhook := fun _ _ => some (.new (lit "connection refused")) }

/-- The function `strings.Trim(s, " \n")`: `s` without its leading and
trailing spaces and line feeds. -/
def Trim (s : GoString) : GoString :=
  ((s.dropWhile fun b => b = 32 || b = 10).reverse.dropWhile fun b => b = 32 || b = 10).reverse

/-- Collaborators for the examples: every template is plain text and renders
to itself, trimmed; no file can be read; posting succeeds. -/
def exampleTrimEnv : Env :=
  { RenderTrim := fun t _ => (Trim t, none)
    ReadFile := fun _ => ([], some (.new (lit "no such file")))
    PostWebhook := fun _ _ => none }

/-! ## The two texts as functions of what they depend on -/

/-- The fallback text of lines 57-65 for the fallback template `fb`: `none` is
the panic of `fallback`. -/
def Execute.fallbackText (env : Env) (fb : GoString) (pl : Pipeline) : Option GoString :=
  if fb ≠ [] then some (env.RenderTrim fb pl).1 else fallback pl

/-- The template text at line 91 for the inline template `template` and the
template file `templateFile`. -/
def Execute.activeTemplate (env : Env) (template templateFile : GoString) : GoString :=
  if templateFile ≠ [] then (env.ReadFile templateFile).1 else template

/-- The primary text of lines 91-105: `none` is the panic of `message`. -/
def Execute.primaryText (env : Env) (template templateFile : GoString) (pl : Pipeline) :
    Option GoString :=
  if Execute.activeTemplate env template templateFile ≠ [] then
    some (env.RenderTrim (Execute.activeTemplate env template templateFile) pl).1
  else message pl

/-! ## Literals -/

theorem lit_message_format :
    lit "*%s* <%s|%s/%s#%s> (%s) by %s" =
      [42, 37, 115, 42, 32, 60, 37, 115, 124, 37, 115, 47, 37, 115, 35, 37, 115, 62, 32, 40,
        37, 115, 41, 32, 98, 121, 32, 37, 115] := by decide

theorem lit_fallback_format :
    lit "%s %s/%s#%s (%s) by %s" =
      [37, 115, 32, 37, 115, 47, 37, 115, 35, 37, 115, 32, 40, 37, 115, 41, 32, 98, 121, 32,
        37, 115] := by decide

/-! ## Validate -/

/-- C1: `Validate` returns an error exactly when the webhook is empty, the
error is `missing webhook`, the result is the same for any other values of the
remaining settings fields and of the pipeline, and the receiver is unchanged. -/
theorem Validate_error_iff_webhook_empty (p : Plugin) (s : Settings) (pl : Pipeline) :
    ((Plugin.Validate p).2 ≠ none ↔ p.settings.Webhook = []) ∧
    (Plugin.Validate p).2 =
      (if p.settings.Webhook = [] then some (GoError.new (lit "missing webhook")) else none) ∧
    (Plugin.Validate ⟨{ s with Webhook := p.settings.Webhook }, pl⟩).2 = (Plugin.Validate p).2 ∧
    (Plugin.Validate p).1 = p := by
  unfold Plugin.Validate
  by_cases h : p.settings.Webhook = [] <;> simp [h]

/-! ## color -/

/-- C4: `color` is `good` exactly for status `success`, `danger` exactly for
`failure`, `error` and `killed`, and `warning` for every other status; the
comparison is on the exact bytes, so `""`, `pending` and `Success` give
`warning`. -/
theorem color_total (b : Build) :
    (color b = lit "good" ↔ b.Status = lit "success") ∧
    (color b = lit "danger" ↔
      (b.Status = lit "failure" ∨ b.Status = lit "error" ∨ b.Status = lit "killed")) ∧
    (color b = lit "warning" ↔
      ¬ (b.Status = lit "success" ∨ b.Status = lit "failure" ∨ b.Status = lit "error"
        ∨ b.Status = lit "killed")) ∧
    (color b = lit "good" ∨ color b = lit "danger" ∨ color b = lit "warning") ∧
    color { b with Status := lit "" } = lit "warning" ∧
    color { b with Status := lit "pending" } = lit "warning" ∧
    color { b with Status := lit "Success" } = lit "warning" := by
  have hgd : lit "good" ≠ lit "danger" := by decide
  have hgw : lit "good" ≠ lit "warning" := by decide
  have hdw : lit "danger" ≠ lit "warning" := by decide
  have hsf : lit "success" ≠ lit "failure" := by decide
  have hse : lit "success" ≠ lit "error" := by decide
  have hsk : lit "success" ≠ lit "killed" := by decide
  have hw : ∀ st : GoString,
      ¬ (st = lit "success" ∨ st = lit "failure" ∨ st = lit "error" ∨ st = lit "killed") →
      color { b with Status := st } = lit "warning" := by
    intro st hst
    unfold color
    simp only [not_or] at hst
    simp [hst.1, hst.2.1, hst.2.2.1, hst.2.2.2]
  refine ⟨?_, ?_, ?_, ?_, hw _ (by decide), hw _ (by decide), hw _ (by decide)⟩
  all_goals
    unfold color
    by_cases h1 : b.Status = lit "success"
    · simp [h1, hgd, hgw, hsf, hse, hsk]
    · by_cases h2 : b.Status = lit "failure" ∨ b.Status = lit "error" ∨ b.Status = lit "killed"
      · simp [h1, h2, hgd.symm, hdw]
      · simp [h1, h2, hgw.symm, hdw.symm]
        try tauto

/-! ## detectRef -/

theorem detectRef_of_sha (build : Build) (commit : Commit)
    (h : commit.SHA = [] ∨ 8 ≤ commit.SHA.length) :
    detectRef build commit =
      some (if commit.SHA = [] then build.Tag else commit.SHA.take 8) := by
  unfold detectRef
  rcases h with h | h
  · simp [h]
  · have hne : commit.SHA ≠ [] := by
      intro h0; rw [h0] at h; simp at h
    simp [hne, h]

/-- C6: for a SHA of at least 8 bytes `detectRef` returns its first 8 bytes,
whatever the build; for an empty SHA it returns the build tag as it is (also
when the tag is empty). -/
theorem detectRef_spec (build : Build) (commit : Commit)
    (h : commit.SHA = [] ∨ 8 ≤ commit.SHA.length) :
    detectRef build commit =
      some (if commit.SHA = [] then build.Tag else commit.SHA.take 8) ∧
    (8 ≤ commit.SHA.length →
      detectRef build commit = some (commit.SHA.take 8) ∧ (commit.SHA.take 8).length = 8 ∧
      ∀ build2, detectRef build2 commit = detectRef build commit) ∧
    (commit.SHA = [] → detectRef build commit = some build.Tag) := by
  unfold detectRef
  rcases h with h | h
  · simp [h]
  · have hne : commit.SHA ≠ [] := by
      intro h0; rw [h0] at h; simp at h
    simp [hne, h]

theorem detectRef_spec_witness :
    detectRef ⟨lit "success", lit "http://x", lit "main", lit "v1"⟩ ⟨lit "abcdef1234", lit "Al"⟩
        = some (lit "abcdef12") ∧
    detectRef ⟨lit "success", lit "http://x", lit "main", lit "v1"⟩ ⟨[], lit "Al"⟩
        = some (lit "v1") :=
  ⟨((detectRef_spec ⟨lit "success", lit "http://x", lit "main", lit "v1"⟩
      ⟨lit "abcdef1234", lit "Al"⟩ (Or.inr (by decide))).2.1 (by decide)).1.trans (by decide),
   (detectRef_spec ⟨lit "success", lit "http://x", lit "main", lit "v1"⟩
      ⟨[], lit "Al"⟩ (Or.inl rfl)).2.2 rfl⟩


/-! ## message and fallback -/

theorem message_of_ref (p : Pipeline) (ref : GoString) (h : detectRef p.Build p.Commit = some ref) :
    message p = some (lit "*" ++ p.Build.Status ++ lit "* <" ++ p.Build.Link ++ lit "|"
      ++ p.Repo.Owner ++ lit "/" ++ p.Repo.Name ++ lit "#" ++ ref ++ lit "> ("
      ++ p.Build.Branch ++ lit ") by " ++ p.Commit.Author) := by
  unfold message
  rw [h, lit_message_format]
  simp [Sprintf]
  rfl

theorem fallback_of_ref (p : Pipeline) (ref : GoString) (h : detectRef p.Build p.Commit = some ref) :
    fallback p = some (p.Build.Status ++ lit " " ++ p.Repo.Owner ++ lit "/" ++ p.Repo.Name
      ++ lit "#" ++ ref ++ lit " (" ++ p.Build.Branch ++ lit ") by " ++ p.Commit.Author) := by
  unfold fallback
  rw [h, lit_fallback_format]
  simp [Sprintf]
  rfl

/-- C7: when the SHA is empty or has at least 8 bytes, `message` returns
`*status* <link|owner/name#ref> (branch) by author` with `ref` the value of
`detectRef`; on the pipeline of the specification's example it returns
`*success* <http://x|o/r#abcdef12> (main) by Al`. -/
theorem message_default (p : Pipeline) (tag : GoString)
    (h : p.Commit.SHA = [] ∨ 8 ≤ p.Commit.SHA.length) :
    (∃ ref, detectRef p.Build p.Commit = some ref ∧
      message p = some (lit "*" ++ p.Build.Status ++ lit "* <" ++ p.Build.Link ++ lit "|"
        ++ p.Repo.Owner ++ lit "/" ++ p.Repo.Name ++ lit "#" ++ ref ++ lit "> ("
        ++ p.Build.Branch ++ lit ") by " ++ p.Commit.Author)) ∧
    message ⟨⟨lit "success", lit "http://x", lit "main", tag⟩, ⟨lit "o", lit "r"⟩,
        ⟨lit "abcdef1234", lit "Al"⟩⟩
      = some (lit "*success* <http://x|o/r#abcdef12> (main) by Al") := by
  constructor
  · have hd := detectRef_of_sha p.Build p.Commit h
    exact ⟨_, hd, message_of_ref p _ hd⟩
  · have hd : detectRef ⟨lit "success", lit "http://x", lit "main", tag⟩
        ⟨lit "abcdef1234", lit "Al"⟩ = some (lit "abcdef12") := by
      rw [detectRef, if_pos (by decide), if_pos (by decide)]
      decide
    rw [message_of_ref _ _ hd]
    dsimp only
    decide


theorem message_default_witness :
    (examplePipeline.Commit.SHA = [] ∨ 8 ≤ examplePipeline.Commit.SHA.length) ∧
    message examplePipeline = some (lit "*success* <http://x|o/r#abcdef12> (main) by Al") := by
  refine ⟨Or.inr (by decide), ?_⟩
  obtain ⟨ref, hd, hm⟩ := (message_default examplePipeline [] (Or.inr (by decide))).1
  have hr : ref = lit "abcdef12" := Option.some.inj (hd.symm.trans (by decide))
  subst hr
  exact hm.trans (by decide)

/-! ## Execute -/

theorem Execute_eq_staged (env : Env) (p : Plugin) : p.Execute env = Execute.staged env p := rfl


theorem stage1_cases (env : Env) (p : Plugin) :
    (∃ x e, p.settings.Fallback ≠ [] ∧
      env.RenderTrim p.settings.Fallback p.pipeline = (x, some e) ∧
      Execute.stage1 env p = .inl (Execute.attachment1 p,
        .returned (some (.wrapf (lit "could not create fallback message: ") e)))) ∨
    (p.settings.Fallback = [] ∧ fallback p.pipeline = none ∧
      Execute.stage1 env p = .inl (Execute.attachment1 p, .panicked)) ∨
    (∃ f, FallbackText env p f ∧
      Execute.stage1 env p = .inr { Execute.attachment1 p with Fallback := f }) := by
  unfold Execute.stage1 templateMessage
  by_cases hfb : p.settings.Fallback = []
  · rw [if_neg (not_not.mpr hfb)]
    rcases hf : fallback p.pipeline with _ | f
    · exact Or.inr (Or.inl ⟨hfb, rfl, rfl⟩)
    · exact Or.inr (Or.inr ⟨f, .default f hfb hf, rfl⟩)
  · rw [if_pos hfb]
    rcases hr : env.RenderTrim p.settings.Fallback p.pipeline with ⟨x, _ | e⟩
    · exact Or.inr (Or.inr ⟨x, .rendered x hfb hr, rfl⟩)
    · exact Or.inl ⟨x, e, hfb, rfl, rfl⟩

theorem stage2_cases (env : Env) (p : Plugin) :
    (∃ x e, p.settings.TemplateFile ≠ [] ∧
      env.ReadFile p.settings.TemplateFile = (x, some e) ∧
      Execute.stage2 env p = .inl (.wrapf (lit "could not read template file: ") e)) ∨
    (∃ s, LoadedSettings env p s ∧ Execute.stage2 env p = .inr s) := by
  unfold Execute.stage2
  by_cases htf : p.settings.TemplateFile = []
  · rw [if_neg (not_not.mpr htf)]
    exact Or.inr ⟨_, .inline htf, rfl⟩
  · rw [if_pos htf]
    rcases hr : env.ReadFile p.settings.TemplateFile with ⟨x, _ | e⟩
    · exact Or.inr ⟨_, .file x htf hr, rfl⟩
    · exact Or.inl ⟨x, e, htf, rfl, rfl⟩

theorem stage3_path (env : Env) (p : Plugin) (f : GoString) (s : Settings)
    (hf : FallbackText env p f) (hs : LoadedSettings env p s) :
    ExecPath env p (Execute.stage3 env p { Execute.attachment1 p with Fallback := f } s) := by
  unfold Execute.stage3 templateMessage
  by_cases ht : s.Template = []
  · rw [if_neg (not_not.mpr ht)]
    rcases hm : message p.pipeline with _ | text
    · exact .messagePanic f s hf hs ht hm
    · exact .sentDefault f s text hf hs ht hm
  · rw [if_pos ht]
    rcases hr : env.RenderTrim s.Template p.pipeline with ⟨text, _ | e⟩
    · exact .sentTemplate f s text hf hs ht hr
    · exact .renderError f s text e hf hs ht hr

/-- Every call of `Execute` takes one of the seven paths. -/
theorem Execute_path (env : Env) (p : Plugin) : ExecPath env p (p.Execute env) := by
  rw [Execute_eq_staged]
  unfold Execute.staged
  rcases stage1_cases env p with ⟨x, e, hfb, hr, h1⟩ | ⟨hfb, hf, h1⟩ | ⟨f, hf, h1⟩
  · rw [h1]; exact .fallbackRenderError x e hfb hr
  · rw [h1]; exact .fallbackPanic hfb hf
  · rw [h1]
    rcases stage2_cases env p with ⟨x, e, htf, hr, h2⟩ | ⟨s, hs, h2⟩
    · rw [h2]; exact .readError f x e hf htf hr
    · rw [h2]; exact stage3_path env p f s hf hs


/-! ### The parts -/

theorem attachment1_Color (p : Plugin) :
    (Execute.attachment1 p).Color =
      if p.settings.Color ≠ [] then p.settings.Color else color p.pipeline.Build := by
  unfold Execute.attachment1
  by_cases h : p.settings.Color = [] <;> simp [h]

theorem attachment1_Text (p : Plugin) : (Execute.attachment1 p).Text = [] := by
  unfold Execute.attachment1
  by_cases h : p.settings.Color = [] <;> simp [h]

theorem prepend_eq (pfx s : GoString) :
    prepend pfx s = if pfx <+: s then s else pfx ++ s := by
  unfold prepend HasPrefix
  by_cases h : pfx <+: s
  · simp [h, List.isPrefixOf_iff_prefix.mpr h]
  · have h2 : pfx.isPrefixOf s = false := by
      rw [Bool.eq_false_iff]
      exact fun hc => h (List.isPrefixOf_iff_prefix.mp hc)
    simp [h, h2]

theorem msg_Attachments (p : Plugin) (a : Attachment) : (Execute.msg p a).Attachments = [a] := by
  unfold Execute.msg
  by_cases h1 : p.settings.Recipient = [] <;> by_cases h2 : p.settings.Channel = [] <;>
    simp [h1, h2]

theorem msg_Channel (p : Plugin) (a : Attachment) :
    (Execute.msg p a).Channel =
      if p.settings.Recipient ≠ [] then prepend (lit "@") p.settings.Recipient
      else if p.settings.Channel ≠ [] then prepend (lit "#") p.settings.Channel
      else [] := by
  unfold Execute.msg
  by_cases h1 : p.settings.Recipient = [] <;> by_cases h2 : p.settings.Channel = [] <;>
    simp [h1, h2]

theorem posts_append (xs ys : List Event) : posts (xs ++ ys) = posts xs ++ posts ys := by
  induction xs with
  | nil => rfl
  | cons x xs ih => cases x <;> simp [posts, ih]

theorem posts_trace1 (p : Plugin) : posts (Execute.trace1 p) = [] := by
  unfold Execute.trace1
  by_cases h : p.settings.Fallback = [] <;> simp [h, posts]

theorem posts_trace2 (p : Plugin) : posts (Execute.trace2 p) = [] := by
  unfold Execute.trace2
  by_cases h : p.settings.TemplateFile = [] <;> simp [h, posts, posts_append, posts_trace1]

/-- Every message handed to the webhook sender is the local `msg`, and its
only attachment has an empty text. -/
theorem Execute_posted (env : Env) (p : Plugin) (url : GoString) (m : WebhookMessage)
    (h : (url, m) ∈ posts (p.Execute env).trace) :
    (p.Execute env).msg = some m ∧ url = (p.Execute env).settings.Webhook ∧
    ∃ a, m.Attachments = [a] ∧ a.Text = [] ∧ a.Fallback = (p.Execute env).attachment.Fallback
      ∧ a.Color = (p.Execute env).attachment.Color := by
  have hp := Execute_path env p
  generalize p.Execute env = r at hp h
  cases hp <;>
    simp [posts_append, posts_trace1, posts_trace2, posts] at h ⊢
  all_goals
    obtain ⟨h1, h2⟩ := h
    subst h1 h2
    simp [msg_Attachments, attachment1_Text]


/-! ### The message that is sent -/

/-- C2: on the settings with a webhook only and the pipeline of the
specification's example, `Execute` returns `nil`, the primary text it composes
is `*success* <http://x|o/r#abcdef12> (main) by Al`, and the one message it
hands to the webhook sender has one attachment whose text is empty. -/
theorem Execute_posted_text_example :
    (Plugin.Execute exampleEnv ⟨exampleSettings, examplePipeline⟩).ret = .returned none ∧
    message examplePipeline = some (lit "*success* <http://x|o/r#abcdef12> (main) by Al") ∧
    (Plugin.Execute exampleEnv ⟨exampleSettings, examplePipeline⟩).attachment.Text
      = lit "*success* <http://x|o/r#abcdef12> (main) by Al" ∧
    (posts (Plugin.Execute exampleEnv ⟨exampleSettings, examplePipeline⟩).trace).map
        (fun um => (um.1, um.2.Attachments.map Attachment.Text))
      = [(lit "http://hook", [[]])] := by
  decide

/-- C3: the `Channel` of the message `Execute` builds is the recipient with a
leading `@` (as it is when it starts with `@`) when the recipient is not
empty, else the channel with a leading `#` (as it is when it starts with `#`)
when the channel is not empty, else empty; a message handed to the webhook
sender is that message. -/
theorem Execute_channel (env : Env) (p : Plugin) (m : WebhookMessage)
    (h : (p.Execute env).msg = some m) :
    m.Channel =
      (if p.settings.Recipient ≠ [] then
        (if lit "@" <+: p.settings.Recipient then p.settings.Recipient
          else lit "@" ++ p.settings.Recipient)
      else if p.settings.Channel ≠ [] then
        (if lit "#" <+: p.settings.Channel then p.settings.Channel
          else lit "#" ++ p.settings.Channel)
      else []) ∧
    ∀ url m2, (url, m2) ∈ posts (p.Execute env).trace → m2 = m := by
  constructor
  · have hp := Execute_path env p
    generalize p.Execute env = r at hp h
    cases hp <;> simp at h <;> subst h <;> rw [msg_Channel, prepend_eq, prepend_eq]
  · intro url m2 h2
    have h3 := (Execute_posted env p url m2 h2).1
    rw [h] at h3
    exact (Option.some.inj h3).symm

theorem Execute_channel_witness :
    (Plugin.Execute exampleEnv
        ⟨{ exampleSettings with Recipient := lit "bob", Channel := lit "dev" },
          examplePipeline⟩).msg.map WebhookMessage.Channel = some (lit "@bob") := by
  have h : (Plugin.Execute exampleEnv
        ⟨{ exampleSettings with Recipient := lit "bob", Channel := lit "dev" },
          examplePipeline⟩).msg.isSome = true := by decide
  obtain ⟨m, hm⟩ := Option.isSome_iff_exists.mp h
  have hc := (Execute_channel exampleEnv _ m hm).1
  rw [hm, Option.map_some', hc]
  decide

/-! ### Colour -/

/-- C5: the colour of the attachment `Execute` builds is `Settings.Color` when
that is not empty and `color` of the build otherwise, on every path; the
attachment of the message it builds has the same colour. -/
theorem Execute_color (env : Env) (p : Plugin) :
    (p.Execute env).attachment.Color =
      (if p.settings.Color ≠ [] then p.settings.Color else color p.pipeline.Build) ∧
    ∀ m, (p.Execute env).msg = some m →
      m.Attachments.map Attachment.Color =
        [if p.settings.Color ≠ [] then p.settings.Color else color p.pipeline.Build] := by
  have hp := Execute_path env p
  generalize p.Execute env = r at hp
  cases hp <;> simp [msg_Attachments, attachment1_Color]

theorem Execute_color_witness :
    (Plugin.Execute exampleEnv ⟨{ exampleSettings with Color := lit "#ff0000" },
        examplePipeline⟩).msg.map (fun m => m.Attachments.map Attachment.Color)
      = some [lit "#ff0000"] ∧
    (Plugin.Execute exampleEnv ⟨exampleSettings, examplePipeline⟩).msg.map
        (fun m => m.Attachments.map Attachment.Color)
      = some [lit "good"] := by
  have h1 : (Plugin.Execute exampleEnv ⟨{ exampleSettings with Color := lit "#ff0000" },
        examplePipeline⟩).msg.isSome = true := by decide
  have h2 : (Plugin.Execute exampleEnv ⟨exampleSettings, examplePipeline⟩).msg.isSome = true := by
    decide
  obtain ⟨m1, hm1⟩ := Option.isSome_iff_exists.mp h1
  obtain ⟨m2, hm2⟩ := Option.isSome_iff_exists.mp h2
  constructor
  · rw [hm1, Option.map_some', (Execute_color exampleEnv _).2 m1 hm1]
    decide
  · rw [hm2, Option.map_some', (Execute_color exampleEnv _).2 m2 hm2]
    decide


/-! ### Fallback text -/

/-- C8: when the SHA is empty or has at least 8 bytes, `fallback` returns
`status owner/name#ref (branch) by author` with `ref` the value of
`detectRef`; and when `Settings.Fallback` is empty, `Execute` builds a message
and the fallback of its attachment, and of the attachment in the message, is
that text. -/
theorem fallback_default (env : Env) (s : Settings) (pl : Pipeline)
    (h : pl.Commit.SHA = [] ∨ 8 ≤ pl.Commit.SHA.length) :
    ∃ ref, detectRef pl.Build pl.Commit = some ref ∧
      fallback pl = some (pl.Build.Status ++ lit " " ++ pl.Repo.Owner ++ lit "/" ++ pl.Repo.Name
        ++ lit "#" ++ ref ++ lit " (" ++ pl.Build.Branch ++ lit ") by " ++ pl.Commit.Author) ∧
      (s.Fallback = [] →
        (Plugin.Execute env ⟨s, pl⟩).attachment.Fallback =
          pl.Build.Status ++ lit " " ++ pl.Repo.Owner ++ lit "/" ++ pl.Repo.Name
            ++ lit "#" ++ ref ++ lit " (" ++ pl.Build.Branch ++ lit ") by " ++ pl.Commit.Author ∧
        ((Plugin.Execute env ⟨s, pl⟩).msg.map fun m => m.Attachments.map Attachment.Fallback) =
          some [pl.Build.Status ++ lit " " ++ pl.Repo.Owner ++ lit "/" ++ pl.Repo.Name
            ++ lit "#" ++ ref ++ lit " (" ++ pl.Build.Branch ++ lit ") by " ++ pl.Commit.Author]) := by
  have hd := detectRef_of_sha pl.Build pl.Commit h
  have hf := fallback_of_ref pl _ hd
  refine ⟨_, hd, hf, fun hs => ?_⟩
  have hp := Execute_path env ⟨s, pl⟩
  generalize Plugin.Execute env ⟨s, pl⟩ = r at hp
  have hft : ∀ f, FallbackText env ⟨s, pl⟩ f → fallback pl = some f := by
    intro f hft
    cases hft with
    | rendered h1 _ => exact absurd hs h1
    | default _ h2 => exact h2
  cases hp with
  | fallbackRenderError x e h1 _ => exact absurd hs h1
  | fallbackPanic _ h2 => rw [hf] at h2; cases h2
  | readError f x e h1 _ _ =>
    have h3 := Option.some.inj ((hft f h1).symm.trans hf)
    simp [msg_Attachments, h3]
  | renderError f s2 text e h1 _ _ _ =>
    have h3 := Option.some.inj ((hft f h1).symm.trans hf)
    simp [msg_Attachments, h3]
  | sentTemplate f s2 text h1 _ _ _ =>
    have h3 := Option.some.inj ((hft f h1).symm.trans hf)
    simp [msg_Attachments, h3]
  | messagePanic f s2 h1 _ _ _ =>
    have h3 := Option.some.inj ((hft f h1).symm.trans hf)
    simp [msg_Attachments, h3]
  | sentDefault f s2 text h1 _ _ _ =>
    have h3 := Option.some.inj ((hft f h1).symm.trans hf)
    simp [msg_Attachments, h3]

theorem fallback_default_witness :
    fallback examplePipeline = some (lit "success o/r#abcdef12 (main) by Al") ∧
    (Plugin.Execute exampleEnv ⟨exampleSettings, examplePipeline⟩).attachment.Fallback
      = lit "success o/r#abcdef12 (main) by Al" := by
  obtain ⟨ref, hd, hf, hx⟩ :=
    fallback_default exampleEnv exampleSettings examplePipeline (Or.inr (by decide))
  have hr : ref = lit "abcdef12" := by
    have h2 : detectRef examplePipeline.Build examplePipeline.Commit = some (lit "abcdef12") := by
      decide
    exact Option.some.inj (hd.symm.trans h2)
  subst hr
  exact ⟨hf.trans (by decide), (hx rfl).1.trans (by decide)⟩


/-! ### Template file -/

theorem not_read_mem_trace1 (p : Plugin) (path : GoString) :
    Event.read path ∉ Execute.trace1 p := by
  unfold Execute.trace1
  by_cases h : p.settings.Fallback = [] <;> simp [h]

theorem stage2_of_read (env : Env) (p : Plugin) (c : GoString)
    (htf : p.settings.TemplateFile ≠ [])
    (hrd : env.ReadFile p.settings.TemplateFile = (c, none)) :
    Execute.stage2 env p = .inr { p.settings with Template := c } := by
  unfold Execute.stage2
  rw [if_pos htf, hrd]

theorem trace2_of_file (p : Plugin) (htf : p.settings.TemplateFile ≠ []) :
    Execute.trace2 p =
      (if p.settings.Fallback ≠ [] then [Event.render p.settings.Fallback] else [])
        ++ [Event.read p.settings.TemplateFile] := by
  unfold Execute.trace2 Execute.trace1
  rw [if_pos htf]

/-- When the template file is read with success, the call got past lines
57-65 and goes on at line 91 with the file content as template. -/
theorem Execute_of_read (env : Env) (p : Plugin) (c : GoString)
    (htf : p.settings.TemplateFile ≠ [])
    (hrd : env.ReadFile p.settings.TemplateFile = (c, none))
    (hreach : Event.read p.settings.TemplateFile ∈ (p.Execute env).trace) :
    ∃ f, Execute.stage1 env p = .inr { Execute.attachment1 p with Fallback := f } ∧
      p.Execute env = Execute.stage3 env p { Execute.attachment1 p with Fallback := f }
        { p.settings with Template := c } := by
  rw [Execute_eq_staged] at hreach ⊢
  unfold Execute.staged at hreach ⊢
  rcases stage1_cases env p with ⟨x, e, _, _, h1⟩ | ⟨_, _, h1⟩ | ⟨f, _, h1⟩
  · rw [h1] at hreach
    exact absurd hreach (not_read_mem_trace1 p _)
  · rw [h1] at hreach
    exact absurd hreach (not_read_mem_trace1 p _)
  · refine ⟨f, h1, ?_⟩
    rw [h1, stage2_of_read env p c htf hrd]

/-- With a template file that can be read, the inline template changes
nothing of what the call leaves behind except, when the call stops before the
read, the template text of the settings. -/
theorem Execute_inline_template (env : Env) (p : Plugin) (c t : GoString)
    (htf : p.settings.TemplateFile ≠ [])
    (hrd : env.ReadFile p.settings.TemplateFile = (c, none)) :
    (Plugin.Execute env ⟨{ p.settings with Template := t }, p.pipeline⟩).attachment
      = (p.Execute env).attachment ∧
    (Plugin.Execute env ⟨{ p.settings with Template := t }, p.pipeline⟩).msg
      = (p.Execute env).msg ∧
    (Plugin.Execute env ⟨{ p.settings with Template := t }, p.pipeline⟩).trace
      = (p.Execute env).trace ∧
    (Plugin.Execute env ⟨{ p.settings with Template := t }, p.pipeline⟩).ret
      = (p.Execute env).ret := by
  rw [Execute_eq_staged, Execute_eq_staged]
  unfold Execute.staged
  have e1 : Execute.stage1 env ⟨{ p.settings with Template := t }, p.pipeline⟩
      = Execute.stage1 env p := rfl
  have e2 : Execute.stage2 env ⟨{ p.settings with Template := t }, p.pipeline⟩
      = .inr { p.settings with Template := c } :=
    stage2_of_read env ⟨{ p.settings with Template := t }, p.pipeline⟩ c htf hrd
  rw [e1, e2, stage2_of_read env p c htf hrd]
  rcases Execute.stage1 env p with ⟨a, out⟩ | a2
  · exact ⟨rfl, rfl, rfl, rfl⟩
  · exact ⟨rfl, rfl, rfl, rfl⟩

/-- C9: let `TemplateFile` be not empty and its read succeed with content
`c`. Whatever the inline `Settings.Template` is, the call leaves behind the
same primary text (and attachment, message, collaborator calls and returned
value). When `Execute` performs the read, the template text of the settings
becomes `c`; after the read no template other than `c` is rendered, and when
`c` is not empty it is rendered and its rendering is the primary text. -/
theorem Execute_template_file (env : Env) (p : Plugin) (c : GoString)
    (htf : p.settings.TemplateFile ≠ [])
    (hrd : env.ReadFile p.settings.TemplateFile = (c, none)) :
    (∀ t,
      (Plugin.Execute env ⟨{ p.settings with Template := t }, p.pipeline⟩).attachment.Text
        = (p.Execute env).attachment.Text ∧
      (Plugin.Execute env ⟨{ p.settings with Template := t }, p.pipeline⟩).msg
        = (p.Execute env).msg ∧
      (Plugin.Execute env ⟨{ p.settings with Template := t }, p.pipeline⟩).trace
        = (p.Execute env).trace ∧
      (Plugin.Execute env ⟨{ p.settings with Template := t }, p.pipeline⟩).ret
        = (p.Execute env).ret) ∧
    (Event.read p.settings.TemplateFile ∈ (p.Execute env).trace →
      (p.Execute env).settings.Template = c ∧
      (∃ rest, (p.Execute env).trace =
          (if p.settings.Fallback ≠ [] then [Event.render p.settings.Fallback] else [])
            ++ Event.read p.settings.TemplateFile :: rest ∧
          (∀ t, Event.render t ∈ rest → t = c) ∧ (c ≠ [] → Event.render c ∈ rest)) ∧
      (c ≠ [] → (p.Execute env).attachment.Text = (templateMessage env c p.pipeline).1)) := by
  refine ⟨fun t => ?_, fun hreach => ?_⟩
  · have h := Execute_inline_template env p c t htf hrd
    exact ⟨by rw [h.1], h.2⟩
  obtain ⟨f, h1, hx⟩ := Execute_of_read env p c htf hrd hreach
  refine ⟨?_, ?_, ?_⟩
  · rw [hx]
    unfold Execute.stage3
    split
    · split <;> rfl
    · split <;> rfl
  · rw [hx]
    unfold Execute.stage3
    rw [trace2_of_file p htf]
    by_cases hc : c = []
    · rw [if_neg (not_not.mpr hc)]
      rcases message p.pipeline with _ | text
      · exact ⟨[], by simp, by simp, fun h => absurd hc h⟩
      · exact ⟨[.post p.settings.Webhook
            (Execute.msg p { Execute.attachment1 p with Fallback := f })],
          by simp, by simp, fun h => absurd hc h⟩
    · rw [if_pos hc]
      rcases templateMessage env c p.pipeline with ⟨text, _ | e⟩
      · exact ⟨[.render c, .post p.settings.Webhook
            (Execute.msg p { Execute.attachment1 p with Fallback := f })],
          by simp, by simp, by simp⟩
      · exact ⟨[.render c], by simp, by simp, by simp⟩
  · intro hc
    rw [hx]
    unfold Execute.stage3
    rw [if_pos hc]
    rcases templateMessage env c p.pipeline with ⟨text, _ | e⟩ <;> rfl

theorem Execute_template_file_witness :
    (Plugin.Execute exampleFileEnv
        ⟨{ exampleSettings with Template := lit "inline", TemplateFile := lit "slack.tpl" },
          examplePipeline⟩).attachment.Text = lit "success" ∧
    (Plugin.Execute exampleFileEnv
        ⟨{ exampleSettings with Template := lit "inline", TemplateFile := lit "slack.tpl" },
          examplePipeline⟩).settings.Template = lit "\x7b\x7bbuild.status\x7d\x7d" :=
  ⟨(((Execute_template_file exampleFileEnv
        ⟨{ exampleSettings with Template := lit "inline", TemplateFile := lit "slack.tpl" },
          examplePipeline⟩ (lit "\x7b\x7bbuild.status\x7d\x7d")
        (by decide) rfl).2 (by decide)).2.2 (by decide)).trans (by decide),
   ((Execute_template_file exampleFileEnv
        ⟨{ exampleSettings with Template := lit "inline", TemplateFile := lit "slack.tpl" },
          examplePipeline⟩ (lit "\x7b\x7bbuild.status\x7d\x7d")
        (by decide) rfl).2 (by decide)).1⟩

/-! ### Sending -/

theorem send_ne_wrapf (env : Env) (s : Settings) (m : WebhookMessage) (pre : GoString)
    (e : GoError) (hpre : pre ≠ lit "could not send webhook: ") :
    Execute.send env s m ≠ .returned (some (.wrapf pre e)) := by
  unfold Execute.send
  rcases env.PostWebhook s.Webhook m with _ | err
  · simp
  · intro h
    simp only [Outcome.returned.injEq, Option.some.injEq, GoError.wrapf.injEq] at h
    exact hpre h.1.symm

theorem FallbackText.no_error {env : Env} {p : Plugin} {f : GoString}
    (h : FallbackText env p f) (hfb : p.settings.Fallback ≠ []) :
    env.RenderTrim p.settings.Fallback p.pipeline = (f, none) := by
  cases h with
  | rendered _ h2 => exact h2
  | default h1 _ => exact absurd h1 hfb

theorem LoadedSettings.template {env : Env} {p : Plugin} {s : Settings}
    (h : LoadedSettings env p s) :
    s.Template = (if p.settings.TemplateFile ≠ [] then (env.ReadFile p.settings.TemplateFile).1
      else p.settings.Template) ∧
    (p.settings.TemplateFile ≠ [] → (env.ReadFile p.settings.TemplateFile).2 = none) := by
  cases h with
  | file data h1 h2 => simp [h1, h2]
  | inline h1 => simp [h1]

/-- When the webhook sender is called, no earlier step has failed. -/
theorem posts_ne_nil (env : Env) (p : Plugin) (h : posts (p.Execute env).trace ≠ []) :
    (p.settings.Fallback ≠ [] →
      (env.RenderTrim p.settings.Fallback p.pipeline).2 = none) ∧
    (p.settings.TemplateFile ≠ [] → (env.ReadFile p.settings.TemplateFile).2 = none) ∧
    ((if p.settings.TemplateFile ≠ [] then (env.ReadFile p.settings.TemplateFile).1
        else p.settings.Template) ≠ [] →
      (env.RenderTrim
        (if p.settings.TemplateFile ≠ [] then (env.ReadFile p.settings.TemplateFile).1
          else p.settings.Template) p.pipeline).2 = none) := by
  have hp := Execute_path env p
  generalize p.Execute env = r at hp h
  cases hp with
  | fallbackRenderError x e _ _ => simp [posts_trace1] at h
  | fallbackPanic _ _ => simp [posts_trace1] at h
  | readError f x e _ _ _ => simp [posts_trace2] at h
  | renderError f s text e _ _ _ _ => simp [posts_append, posts_trace2, posts] at h
  | messagePanic f s _ _ _ _ => simp [posts_trace2] at h
  | sentTemplate f s text hf hs ht hr =>
    refine ⟨fun hfb => by rw [hf.no_error hfb], hs.template.2, fun _ => ?_⟩
    rw [← hs.template.1, hr]
  | sentDefault f s text hf hs ht hm =>
    refine ⟨fun hfb => by rw [hf.no_error hfb], hs.template.2, fun hne => ?_⟩
    rw [← hs.template.1] at hne
    exact absurd ht hne

/-- C10: every call of `Execute` calls the webhook sender at most once. It
does not call it at all when it returns the error of a template file that
cannot be read, of a primary template that does not render or of a fallback
template that does not render, or panics; nor when the read of a template
file that is set fails, or the rendering of a fallback template that is set
fails, or the rendering of the active primary template fails. -/
theorem Execute_posts_at_most_once (env : Env) (p : Plugin) :
    (posts (p.Execute env).trace).length ≤ 1 ∧
    (∀ e, (p.Execute env).ret
        = .returned (some (.wrapf (lit "could not read template file: ") e)) →
      posts (p.Execute env).trace = []) ∧
    (∀ e, (p.Execute env).ret
        = .returned (some (.wrapf (lit "could not create template message: ") e)) →
      posts (p.Execute env).trace = []) ∧
    (∀ e, (p.Execute env).ret
        = .returned (some (.wrapf (lit "could not create fallback message: ") e)) →
      posts (p.Execute env).trace = []) ∧
    ((p.Execute env).ret = .panicked → posts (p.Execute env).trace = []) ∧
    (∀ e, p.settings.TemplateFile ≠ [] →
      (env.ReadFile p.settings.TemplateFile).2 = some e → posts (p.Execute env).trace = []) ∧
    (∀ e, p.settings.Fallback ≠ [] →
      (env.RenderTrim p.settings.Fallback p.pipeline).2 = some e →
      posts (p.Execute env).trace = []) ∧
    (∀ e,
      (if p.settings.TemplateFile ≠ [] then (env.ReadFile p.settings.TemplateFile).1
        else p.settings.Template) ≠ [] →
      (env.RenderTrim
        (if p.settings.TemplateFile ≠ [] then (env.ReadFile p.settings.TemplateFile).1
          else p.settings.Template) p.pipeline).2 = some e →
      posts (p.Execute env).trace = []) := by
  have hcause := posts_ne_nil env p
  have hp := Execute_path env p
  generalize p.Execute env = r at hp hcause
  have h1 : lit "could not read template file: " ≠ lit "could not send webhook: " := by decide
  have h2 : lit "could not create template message: " ≠ lit "could not send webhook: " := by
    decide
  have h3 : lit "could not create fallback message: " ≠ lit "could not send webhook: " := by
    decide
  have hpanic : ∀ s m, Execute.send env s m ≠ .panicked := by
    intro s m
    unfold Execute.send
    rcases env.PostWebhook s.Webhook m with _ | err <;> simp
  refine ⟨?_, ?_, ?_, ?_, ?_, ?_, ?_, ?_⟩
  · cases hp <;> simp [posts_append, posts_trace1, posts_trace2, posts]
  · cases hp <;>
      simp [posts_append, posts_trace1, posts_trace2, posts, send_ne_wrapf, h1]
  · cases hp <;>
      simp [posts_append, posts_trace1, posts_trace2, posts, send_ne_wrapf, h2]
  · cases hp <;>
      simp [posts_append, posts_trace1, posts_trace2, posts, send_ne_wrapf, h3]
  · cases hp <;>
      simp [posts_append, posts_trace1, posts_trace2, posts, hpanic]
  · intro e htf he
    by_contra hne
    rw [(hcause hne).2.1 htf] at he
    cases he
  · intro e hfb he
    by_contra hne
    rw [(hcause hne).1 hfb] at he
    cases he
  · intro e ht he
    by_contra hne
    rw [(hcause hne).2.2 ht] at he
    cases he

theorem Execute_posts_at_most_once_witness :
    (Plugin.Execute exampleEnv
        ⟨{ exampleSettings with TemplateFile := lit "slack.tpl" }, examplePipeline⟩).ret
      = .returned (some (.wrapf (lit "could not read template file: ")
          (.new (lit "no such file")))) ∧
    posts (Plugin.Execute exampleEnv
        ⟨{ exampleSettings with TemplateFile := lit "slack.tpl" }, examplePipeline⟩).trace = [] :=
  ⟨by decide,
   (Execute_posts_at_most_once exampleEnv
      ⟨{ exampleSettings with TemplateFile := lit "slack.tpl" }, examplePipeline⟩).2.1
      (.new (lit "no such file")) (by decide)⟩


/-- C11: when `Execute` hands a message to the webhook sender, it hands it the
webhook of the settings; if the sender returns the error `e`, `Execute`
returns the error that wraps `e` with the message `could not send webhook: `
followed by the message of `e`; if the sender returns no error, `Execute`
returns `nil`. -/
theorem Execute_send_result (env : Env) (p : Plugin) (url : GoString) (m : WebhookMessage)
    (h : (url, m) ∈ posts (p.Execute env).trace) :
    url = p.settings.Webhook ∧
    (∀ e, env.PostWebhook url m = some e →
      (p.Execute env).ret = .returned (some (.wrapf (lit "could not send webhook: ") e)) ∧
      (GoError.wrapf (lit "could not send webhook: ") e).Error
        = lit "could not send webhook: " ++ e.Error ∧
      (GoError.wrapf (lit "could not send webhook: ") e).Unwrap = some e) ∧
    (env.PostWebhook url m = none → (p.Execute env).ret = .returned none) := by
  have hp := Execute_path env p
  generalize p.Execute env = r at hp h
  cases hp with
  | fallbackRenderError x e _ _ => simp [posts_trace1] at h
  | fallbackPanic _ _ => simp [posts_trace1] at h
  | readError f x e _ _ _ => simp [posts_trace2] at h
  | renderError f s text e _ _ _ _ => simp [posts_append, posts_trace2, posts] at h
  | messagePanic f s _ _ _ _ => simp [posts_trace2] at h
  | sentTemplate f s text hf hs ht hr =>
    simp [posts_append, posts_trace2, posts] at h
    obtain ⟨h1, h2⟩ := h
    subst h1 h2
    refine ⟨?_, fun e he => ⟨?_, rfl, rfl⟩, fun he => ?_⟩
    · cases hs <;> rfl
    · simp [Execute.send, he]
    · simp [Execute.send, he]
  | sentDefault f s text hf hs ht hm =>
    simp [posts_append, posts_trace2, posts] at h
    obtain ⟨h1, h2⟩ := h
    subst h1 h2
    refine ⟨?_, fun e he => ⟨?_, rfl, rfl⟩, fun he => ?_⟩
    · cases hs <;> rfl
    · simp [Execute.send, he]
    · simp [Execute.send, he]

theorem Execute_send_result_witness :
    (Plugin.Execute exampleSendFailEnv ⟨exampleSettings, examplePipeline⟩).ret
      = .returned (some (.wrapf (lit "could not send webhook: ")
          (.new (lit "connection refused")))) ∧
    (Plugin.Execute exampleEnv ⟨exampleSettings, examplePipeline⟩).ret = .returned none := by
  have h1 : (posts (Plugin.Execute exampleSendFailEnv
      ⟨exampleSettings, examplePipeline⟩).trace).head?.isSome = true := by decide
  have h2 : (posts (Plugin.Execute exampleEnv
      ⟨exampleSettings, examplePipeline⟩).trace).head?.isSome = true := by decide
  obtain ⟨um1, hum1⟩ := Option.isSome_iff_exists.mp h1
  obtain ⟨um2, hum2⟩ := Option.isSome_iff_exists.mp h2
  exact ⟨((Execute_send_result exampleSendFailEnv _ um1.1 um1.2
      (List.mem_of_mem_head? hum1)).2.1 _ rfl).1,
    (Execute_send_result exampleEnv _ um2.1 um2.2 (List.mem_of_mem_head? hum2)).2.2 rfl⟩


/-! ### Addressing -/

theorem prepend_idem (pfx s : GoString) : prepend pfx (prepend pfx s) = prepend pfx s := by
  rw [prepend_eq pfx s]
  by_cases h : pfx <+: s
  · rw [if_pos h, prepend_eq, if_pos h]
  · rw [if_neg h, prepend_eq, if_pos (List.prefix_append pfx s)]

theorem Execute_msg_channel (env : Env) (p : Plugin) (m : WebhookMessage)
    (h : (p.Execute env).msg = some m) :
    m.Channel =
      if p.settings.Recipient ≠ [] then prepend (lit "@") p.settings.Recipient
      else if p.settings.Channel ≠ [] then prepend (lit "#") p.settings.Channel
      else [] := by
  have hp := Execute_path env p
  generalize p.Execute env = r at hp h
  cases hp <;> simp at h <;> subst h <;> rw [msg_Channel]

/-- C12: `prepend` is idempotent for every prefix and string; the recipients
`bob` and `@bob` both give the address `@bob` in the message `Execute` builds,
and (with no recipient) the channels `dev` and `#dev` both give `#dev`. -/
theorem prepend_idempotent (env : Env) (s : Settings) (pl : Pipeline) (pfx t : GoString) :
    prepend pfx (prepend pfx t) = prepend pfx t ∧
    prepend (lit "@") (lit "bob") = lit "@bob" ∧
    prepend (lit "@") (lit "@bob") = lit "@bob" ∧
    prepend (lit "#") (lit "dev") = lit "#dev" ∧
    prepend (lit "#") (lit "#dev") = lit "#dev" ∧
    (∀ m, (Plugin.Execute env ⟨{ s with Recipient := lit "bob" }, pl⟩).msg = some m →
      m.Channel = lit "@bob") ∧
    (∀ m, (Plugin.Execute env ⟨{ s with Recipient := lit "@bob" }, pl⟩).msg = some m →
      m.Channel = lit "@bob") ∧
    (∀ m, (Plugin.Execute env ⟨{ s with Recipient := [], Channel := lit "dev" }, pl⟩).msg
        = some m → m.Channel = lit "#dev") ∧
    (∀ m, (Plugin.Execute env ⟨{ s with Recipient := [], Channel := lit "#dev" }, pl⟩).msg
        = some m → m.Channel = lit "#dev") := by
  have e1 : prepend (lit "@") (lit "bob") = lit "@bob" := by decide
  have e2 : prepend (lit "@") (lit "@bob") = lit "@bob" := by decide
  have e3 : prepend (lit "#") (lit "dev") = lit "#dev" := by decide
  have e4 : prepend (lit "#") (lit "#dev") = lit "#dev" := by decide
  have n1 : lit "bob" ≠ [] := by decide
  have n2 : lit "@bob" ≠ [] := by decide
  have n3 : lit "dev" ≠ [] := by decide
  have n4 : lit "#dev" ≠ [] := by decide
  refine ⟨prepend_idem pfx t, e1, e2, e3, e4, ?_, ?_, ?_, ?_⟩
  · intro m hm
    rw [Execute_msg_channel env _ m hm, if_pos n1, e1]
  · intro m hm
    rw [Execute_msg_channel env _ m hm, if_pos n2, e2]
  · intro m hm
    rw [Execute_msg_channel env _ m hm, if_neg (not_not.mpr rfl), if_pos n3, e3]
  · intro m hm
    rw [Execute_msg_channel env _ m hm, if_neg (not_not.mpr rfl), if_pos n4, e4]

theorem prepend_idempotent_witness :
    (Plugin.Execute exampleEnv ⟨{ exampleSettings with Recipient := lit "@bob" },
        examplePipeline⟩).msg.map WebhookMessage.Channel = some (lit "@bob") ∧
    (Plugin.Execute exampleEnv ⟨{ exampleSettings with Recipient := [], Channel := lit "dev" },
        examplePipeline⟩).msg.map WebhookMessage.Channel = some (lit "#dev") := by
  have h1 : (Plugin.Execute exampleEnv ⟨{ exampleSettings with Recipient := lit "@bob" },
        examplePipeline⟩).msg.isSome = true := by decide
  have h2 : (Plugin.Execute exampleEnv
        ⟨{ exampleSettings with Recipient := [], Channel := lit "dev" },
          examplePipeline⟩).msg.isSome = true := by decide
  obtain ⟨m1, hm1⟩ := Option.isSome_iff_exists.mp h1
  obtain ⟨m2, hm2⟩ := Option.isSome_iff_exists.mp h2
  constructor
  · rw [hm1, Option.map_some',
      (prepend_idempotent exampleEnv exampleSettings examplePipeline [] []).2.2.2.2.2.2.1 m1 hm1]
  · rw [hm2, Option.map_some',
      (prepend_idempotent exampleEnv exampleSettings examplePipeline [] []).2.2.2.2.2.2.2.1 m2 hm2]

/-! ### The fields that are passed through -/

/-- C15: a message handed to the webhook sender has the `Username`, `IconURL`
and `IconEmoji` of the settings and exactly one attachment, with the
`ImageURL` of the settings and `MarkdownIn` equal to `text`, `fallback`. -/
theorem Execute_posted_fields (env : Env) (p : Plugin) (url : GoString) (m : WebhookMessage)
    (h : (url, m) ∈ posts (p.Execute env).trace) :
    m.Username = p.settings.Username ∧
    m.IconURL = p.settings.IconURL ∧
    m.IconEmoji = p.settings.IconEmoji ∧
    m.Attachments.length = 1 ∧
    ∃ a, m.Attachments = [a] ∧ a.ImageURL = p.settings.ImageURL ∧
      a.MarkdownIn = [lit "text", lit "fallback"] := by
  have hmsg : ∀ a : Attachment, (Execute.msg p a).Username = p.settings.Username ∧
      (Execute.msg p a).IconURL = p.settings.IconURL ∧
      (Execute.msg p a).IconEmoji = p.settings.IconEmoji := by
    intro a
    unfold Execute.msg
    by_cases h1 : p.settings.Recipient = [] <;> by_cases h2 : p.settings.Channel = [] <;>
      simp [h1, h2]
  have ha : (Execute.attachment1 p).ImageURL = p.settings.ImageURL ∧
      (Execute.attachment1 p).MarkdownIn = [lit "text", lit "fallback"] := by
    unfold Execute.attachment1
    by_cases h1 : p.settings.Color = [] <;> simp [h1]
  have hp := Execute_path env p
  generalize p.Execute env = r at hp h
  cases hp <;>
    simp [posts_append, posts_trace1, posts_trace2, posts] at h
  all_goals
    obtain ⟨h1, h2⟩ := h
    subst h1 h2
    simp [msg_Attachments, hmsg, ha]

theorem Execute_posted_fields_witness :
    (posts (Plugin.Execute exampleEnv
        ⟨{ exampleSettings with Username := lit "drone", ImageURL := lit "http://i" },
          examplePipeline⟩).trace).head?.map (fun um => (um.2.Username, um.2.Attachments.length))
      = some (lit "drone", 1) := by
  have h1 : (posts (Plugin.Execute exampleEnv
        ⟨{ exampleSettings with Username := lit "drone", ImageURL := lit "http://i" },
          examplePipeline⟩).trace).head?.isSome = true := by decide
  obtain ⟨um, hum⟩ := Option.isSome_iff_exists.mp h1
  have h2 := Execute_posted_fields exampleEnv _ um.1 um.2 (List.mem_of_mem_head? hum)
  rw [hum, Option.map_some', h2.1, h2.2.2.2.1]

/-! ### The settings after the call -/

/-- C16: on every path `Execute` leaves every field of the settings other
than `Template` as it was. `Template` changes only when `TemplateFile` is not
empty and the call reads the file with success, and it is then the content of
the file. With an empty `TemplateFile`, a read that fails, or a fallback
template that does not render, the settings after the call are the settings
before. -/
theorem Execute_settings_frame (env : Env) (p : Plugin) :
    { (p.Execute env).settings with Template := p.settings.Template } = p.settings ∧
    ((p.Execute env).settings ≠ p.settings →
      p.settings.TemplateFile ≠ [] ∧ (env.ReadFile p.settings.TemplateFile).2 = none ∧
      Event.read p.settings.TemplateFile ∈ (p.Execute env).trace) ∧
    (p.settings.TemplateFile ≠ [] → (env.ReadFile p.settings.TemplateFile).2 = none →
      Event.read p.settings.TemplateFile ∈ (p.Execute env).trace →
      (p.Execute env).settings.Template = (env.ReadFile p.settings.TemplateFile).1) ∧
    (p.settings.TemplateFile = [] → (p.Execute env).settings = p.settings) ∧
    ((env.ReadFile p.settings.TemplateFile).2 ≠ none → (p.Execute env).settings = p.settings) ∧
    (p.settings.Fallback ≠ [] → (env.RenderTrim p.settings.Fallback p.pipeline).2 ≠ none →
      (p.Execute env).settings = p.settings) := by
  have hload : ∀ s, LoadedSettings env p s →
      { s with Template := p.settings.Template } = p.settings ∧
      (s ≠ p.settings → p.settings.TemplateFile ≠ [] ∧
        (env.ReadFile p.settings.TemplateFile).2 = none ∧
        Event.read p.settings.TemplateFile ∈ Execute.trace2 p) ∧
      (p.settings.TemplateFile ≠ [] →
        s.Template = (env.ReadFile p.settings.TemplateFile).1) ∧
      (p.settings.TemplateFile = [] → s = p.settings) ∧
      ((env.ReadFile p.settings.TemplateFile).2 ≠ none → s = p.settings) := by
    intro s hs
    cases hs with
    | file data h1 h2 =>
      refine ⟨rfl, fun _ => ⟨h1, by rw [h2], ?_⟩, fun _ => by rw [h2], fun h => absurd h h1,
        fun h => ?_⟩
      · rw [trace2_of_file p h1]; simp
      · rw [h2] at h; exact absurd rfl h
    | inline h1 => exact ⟨rfl, fun h => absurd rfl h, fun h => absurd h1 h, fun _ => rfl, fun _ => rfl⟩
  have hp := Execute_path env p
  generalize p.Execute env = r at hp
  cases hp with
  | fallbackRenderError x e _ _ =>
    exact ⟨rfl, fun h => absurd rfl h, fun _ _ h => absurd h (not_read_mem_trace1 p _),
      fun _ => rfl, fun _ => rfl, fun _ _ => rfl⟩
  | fallbackPanic h1 _ =>
    exact ⟨rfl, fun h => absurd rfl h, fun _ _ h => absurd h (not_read_mem_trace1 p _),
      fun _ => rfl, fun _ => rfl, fun _ _ => rfl⟩
  | readError f x e hf h1 h2 =>
    refine ⟨rfl, fun h => absurd rfl h, fun _ h _ => ?_, fun _ => rfl, fun _ => rfl,
      fun _ _ => rfl⟩
    rw [h2] at h
    cases h
  | renderError f s text e hf hs _ _ =>
    obtain ⟨a1, a2, a3, a4, a5⟩ := hload s hs
    refine ⟨a1, fun h => ?_, fun h _ _ => a3 h, a4, a5, fun hfb h => ?_⟩
    · obtain ⟨b1, b2, b3⟩ := a2 h
      exact ⟨b1, b2, List.mem_append_left _ b3⟩
    · rw [hf.no_error hfb] at h; exact absurd rfl h
  | sentTemplate f s text hf hs _ _ =>
    obtain ⟨a1, a2, a3, a4, a5⟩ := hload s hs
    refine ⟨a1, fun h => ?_, fun h _ _ => a3 h, a4, a5, fun hfb h => ?_⟩
    · obtain ⟨b1, b2, b3⟩ := a2 h
      exact ⟨b1, b2, List.mem_append_left _ b3⟩
    · rw [hf.no_error hfb] at h; exact absurd rfl h
  | messagePanic f s hf hs _ _ =>
    obtain ⟨a1, a2, a3, a4, a5⟩ := hload s hs
    refine ⟨a1, a2, fun h _ _ => a3 h, a4, a5, fun hfb h => ?_⟩
    rw [hf.no_error hfb] at h; exact absurd rfl h
  | sentDefault f s text hf hs _ _ =>
    obtain ⟨a1, a2, a3, a4, a5⟩ := hload s hs
    refine ⟨a1, fun h => ?_, fun h _ _ => a3 h, a4, a5, fun hfb h => ?_⟩
    · obtain ⟨b1, b2, b3⟩ := a2 h
      exact ⟨b1, b2, List.mem_append_left _ b3⟩
    · rw [hf.no_error hfb] at h; exact absurd rfl h


theorem Execute_settings_frame_witness :
    (Plugin.Execute exampleFileEnv
        ⟨{ exampleSettings with Template := lit "inline", TemplateFile := lit "slack.tpl" },
          examplePipeline⟩).settings.Template = lit "\x7b\x7bbuild.status\x7d\x7d" ∧
    (Plugin.Execute exampleFailEnv
        ⟨{ exampleSettings with Template := lit "inline", TemplateFile := lit "slack.tpl" },
          examplePipeline⟩).settings
      = { exampleSettings with Template := lit "inline", TemplateFile := lit "slack.tpl" } :=
  ⟨(Execute_settings_frame exampleFileEnv
      ⟨{ exampleSettings with Template := lit "inline", TemplateFile := lit "slack.tpl" },
        examplePipeline⟩).2.2.1 (by decide) rfl (by decide),
   (Execute_settings_frame exampleFailEnv
      ⟨{ exampleSettings with Template := lit "inline", TemplateFile := lit "slack.tpl" },
        examplePipeline⟩).2.2.2.2.1 (by decide)⟩

/-! ### The two texts -/

theorem fallback_ne_nil (pl : Pipeline) (f : GoString) (h : fallback pl = some f) : f ≠ [] := by
  rcases hd : detectRef pl.Build pl.Commit with _ | ref
  · unfold fallback at h
    rw [hd] at h
    cases h
  · rw [fallback_of_ref pl ref hd] at h
    have hsp : lit " " ≠ [] := by decide
    have h2 := Option.some.inj h
    rw [← h2]
    simp [hsp]

theorem FallbackText.eq {env : Env} {p : Plugin} {f : GoString} (h : FallbackText env p f) :
    Execute.fallbackText env p.settings.Fallback p.pipeline = some f := by
  unfold Execute.fallbackText
  cases h with
  | rendered h1 h2 => rw [if_pos h1, h2]
  | default h1 h2 => rw [if_neg (not_not.mpr h1), h2]

/-- When the webhook sender is called, the two texts of the attachment are
the values of `Execute.fallbackText` and `Execute.primaryText`. -/
theorem Execute_composed (env : Env) (p : Plugin) (h : posts (p.Execute env).trace ≠ []) :
    Execute.fallbackText env p.settings.Fallback p.pipeline
      = some (p.Execute env).attachment.Fallback ∧
    Execute.primaryText env p.settings.Template p.settings.TemplateFile p.pipeline
      = some (p.Execute env).attachment.Text := by
  have hp := Execute_path env p
  generalize p.Execute env = r at hp h
  unfold Execute.primaryText Execute.activeTemplate
  cases hp with
  | fallbackRenderError x e _ _ => simp [posts_trace1] at h
  | fallbackPanic _ _ => simp [posts_trace1] at h
  | readError f x e _ _ _ => simp [posts_trace2] at h
  | renderError f s text e _ _ _ _ => simp [posts_append, posts_trace2, posts] at h
  | messagePanic f s _ _ _ _ => simp [posts_trace2] at h
  | sentTemplate f s text hf hs ht hr =>
    refine ⟨hf.eq, ?_⟩
    rw [← hs.template.1, if_pos ht, hr]
  | sentDefault f s text hf hs ht hm =>
    refine ⟨hf.eq, ?_⟩
    rw [← hs.template.1, if_neg (not_not.mpr ht), hm]


/-- C13, as stated, fails: with a renderer that trims its output, the
fallback template ` ` (one space) is not empty and renders without error to
the empty string; `Execute` completes composition, posts the message and
returns `nil`, and the fallback text of the attachment, also of the one in
the posted message, is empty. -/
theorem Execute_fallback_empty_example :
    ({ exampleSettings with Fallback := lit " " } : Settings).Fallback ≠ [] ∧
    templateMessage exampleTrimEnv (lit " ") examplePipeline = ([], none) ∧
    (Plugin.Execute exampleTrimEnv
        ⟨{ exampleSettings with Fallback := lit " " }, examplePipeline⟩).ret = .returned none ∧
    (Plugin.Execute exampleTrimEnv
        ⟨{ exampleSettings with Fallback := lit " " }, examplePipeline⟩).attachment.Fallback = [] ∧
    (posts (Plugin.Execute exampleTrimEnv
        ⟨{ exampleSettings with Fallback := lit " " }, examplePipeline⟩).trace).map
      (fun um => um.2.Attachments.map Attachment.Fallback) = [[[]]] := by
  decide

/-- C13, amended: when `Execute` completes composition, the fallback text of
the attachment is not empty if `Settings.Fallback` is empty (it is the default
fallback message); if `Settings.Fallback` is not empty it is the text the
renderer returns for that template, so it is not empty exactly when that
text is not; the attachment of the posted message carries the same text. -/
theorem Execute_fallback_text (env : Env) (p : Plugin)
    (h : posts (p.Execute env).trace ≠ []) :
    (p.settings.Fallback = [] →
      fallback p.pipeline = some (p.Execute env).attachment.Fallback ∧
      (p.Execute env).attachment.Fallback ≠ []) ∧
    (p.settings.Fallback ≠ [] →
      templateMessage env p.settings.Fallback p.pipeline
        = ((p.Execute env).attachment.Fallback, none)) ∧
    (∀ url m, (url, m) ∈ posts (p.Execute env).trace →
      m.Attachments.map Attachment.Fallback = [(p.Execute env).attachment.Fallback]) := by
  have hc := (Execute_composed env p h).1
  have hnoerr := (posts_ne_nil env p h).1
  refine ⟨fun hfb => ?_, fun hfb => ?_, fun url m hm => ?_⟩
  · unfold Execute.fallbackText at hc
    rw [if_neg (not_not.mpr hfb)] at hc
    exact ⟨hc, fallback_ne_nil _ _ hc⟩
  · unfold Execute.fallbackText at hc
    rw [if_pos hfb] at hc
    unfold templateMessage
    rw [Prod.ext_iff]
    exact ⟨Option.some.inj hc, hnoerr hfb⟩
  · obtain ⟨_, _, a, ha, _, hf, _⟩ := Execute_posted env p url m hm
    rw [ha, List.map_singleton, hf]

theorem Execute_fallback_text_witness :
    posts (Plugin.Execute exampleEnv ⟨exampleSettings, examplePipeline⟩).trace ≠ [] ∧
    (Plugin.Execute exampleEnv ⟨exampleSettings, examplePipeline⟩).attachment.Fallback ≠ [] :=
  ⟨by decide,
   ((Execute_fallback_text exampleEnv ⟨exampleSettings, examplePipeline⟩ (by decide)).1 rfl).2⟩

/-- C14: for one pipeline and two settings on both of which `Execute`
completes composition, the fallback texts are equal when the settings agree
on `Fallback` (whatever `Template` and `TemplateFile` are), and the primary
texts are equal when the settings agree on `Template` and `TemplateFile`
(whatever `Fallback` is). -/
theorem Execute_texts_independent (env : Env) (pl : Pipeline) (s1 s2 : Settings)
    (h1 : posts (Plugin.Execute env ⟨s1, pl⟩).trace ≠ [])
    (h2 : posts (Plugin.Execute env ⟨s2, pl⟩).trace ≠ []) :
    (s1.Fallback = s2.Fallback →
      (Plugin.Execute env ⟨s1, pl⟩).attachment.Fallback
        = (Plugin.Execute env ⟨s2, pl⟩).attachment.Fallback) ∧
    (s1.Template = s2.Template → s1.TemplateFile = s2.TemplateFile →
      (Plugin.Execute env ⟨s1, pl⟩).attachment.Text
        = (Plugin.Execute env ⟨s2, pl⟩).attachment.Text) := by
  have c1 := Execute_composed env ⟨s1, pl⟩ h1
  have c2 := Execute_composed env ⟨s2, pl⟩ h2
  constructor
  · intro hfb
    have e := c1.1
    simp only [hfb] at e
    exact Option.some.inj (e.symm.trans c2.1)
  · intro ht htf
    have e := c1.2
    simp only [ht, htf] at e
    exact Option.some.inj (e.symm.trans c2.2)

theorem Execute_texts_independent_witness :
    (Plugin.Execute exampleFileEnv
        ⟨{ exampleSettings with Fallback := lit "build", Template := lit "inline" },
          examplePipeline⟩).attachment.Fallback
      = (Plugin.Execute exampleFileEnv
        ⟨{ exampleSettings with Fallback := lit "build", TemplateFile := lit "slack.tpl" },
          examplePipeline⟩).attachment.Fallback ∧
    (Plugin.Execute exampleFileEnv
        ⟨{ exampleSettings with Fallback := lit "build", Template := lit "inline" },
          examplePipeline⟩).attachment.Text
      = (Plugin.Execute exampleFileEnv
        ⟨{ exampleSettings with Template := lit "inline" }, examplePipeline⟩).attachment.Text :=
  ⟨(Execute_texts_independent exampleFileEnv examplePipeline
      { exampleSettings with Fallback := lit "build", Template := lit "inline" }
      { exampleSettings with Fallback := lit "build", TemplateFile := lit "slack.tpl" }
      (by decide) (by decide)).1 rfl,
   (Execute_texts_independent exampleFileEnv examplePipeline
      { exampleSettings with Fallback := lit "build", Template := lit "inline" }
      { exampleSettings with Template := lit "inline" }
      (by decide) (by decide)).2 rfl rfl⟩


/-! ### A SHA of 1 to 7 bytes -/

theorem detectRef_eq_none_iff (build : Build) (commit : Commit) :
    detectRef build commit = none ↔ (1 ≤ commit.SHA.length ∧ commit.SHA.length ≤ 7) := by
  unfold detectRef
  by_cases h0 : commit.SHA = []
  · simp [h0]
  · have hpos : 1 ≤ commit.SHA.length := by
      rcases hs : commit.SHA with _ | ⟨b, bs⟩
      · exact absurd hs h0
      · simp
    by_cases h8 : 8 ≤ commit.SHA.length
    · simp [h0, h8]
      omega
    · simp [h0, h8]
      omega

theorem message_eq_none_iff (pl : Pipeline) :
    message pl = none ↔ detectRef pl.Build pl.Commit = none := by
  rcases hd : detectRef pl.Build pl.Commit with _ | ref
  · unfold message
    rw [hd]
  · rw [message_of_ref pl ref hd]
    simp

theorem fallback_eq_none_iff (pl : Pipeline) :
    fallback pl = none ↔ detectRef pl.Build pl.Commit = none := by
  rcases hd : detectRef pl.Build pl.Commit with _ | ref
  · unfold fallback
    rw [hd]
  · rw [fallback_of_ref pl ref hd]
    simp

/-- `Execute` panics only where `detectRef` does. -/
theorem Execute_panicked (env : Env) (p : Plugin) (h : (p.Execute env).ret = .panicked) :
    detectRef p.pipeline.Build p.pipeline.Commit = none := by
  have hsend : ∀ s m, Execute.send env s m ≠ .panicked := by
    intro s m
    unfold Execute.send
    rcases env.PostWebhook s.Webhook m with _ | err <;> simp
  have hp := Execute_path env p
  generalize p.Execute env = r at hp h
  cases hp with
  | fallbackRenderError x e _ _ => cases h
  | fallbackPanic _ h2 => exact (fallback_eq_none_iff _).mp h2
  | readError f x e _ _ _ => cases h
  | renderError f s text e _ _ _ _ => cases h
  | messagePanic f s _ _ _ h2 => exact (message_eq_none_iff _).mp h2
  | sentTemplate f s text _ _ _ _ => exact absurd h (hsend _ _)
  | sentDefault f s text _ _ _ _ => exact absurd h (hsend _ _)

/-- With a pipeline on which `detectRef` panics, `Execute` panics at the
first default text it needs. -/
theorem Execute_of_detectRef_none (env : Env) (p : Plugin)
    (hd : detectRef p.pipeline.Build p.pipeline.Commit = none) :
    (p.settings.Fallback = [] →
      (p.Execute env).ret = .panicked ∧ (p.Execute env).trace = []) ∧
    (Execute.activeTemplate env p.settings.Template p.settings.TemplateFile = [] →
      (p.Execute env).ret ≠ .returned none ∧ posts (p.Execute env).trace = []) ∧
    (Execute.activeTemplate env p.settings.Template p.settings.TemplateFile = [] →
      (env.RenderTrim p.settings.Fallback p.pipeline).2 = none →
      (p.settings.TemplateFile ≠ [] → (env.ReadFile p.settings.TemplateFile).2 = none) →
      p.settings.Fallback ≠ [] → (p.Execute env).ret = .panicked) := by
  have hm : message p.pipeline = none := (message_eq_none_iff _).mpr hd
  have hf : fallback p.pipeline = none := (fallback_eq_none_iff _).mpr hd
  have hp := Execute_path env p
  generalize p.Execute env = r at hp
  unfold Execute.activeTemplate
  cases hp with
  | fallbackRenderError x e h1 h2 =>
    refine ⟨fun h => absurd h h1, fun _ => ⟨by simp, posts_trace1 p⟩, fun _ h _ _ => ?_⟩
    rw [h2] at h
    cases h
  | fallbackPanic h1 _ =>
    refine ⟨fun _ => ⟨rfl, ?_⟩, fun _ => ⟨by simp, posts_trace1 p⟩, fun _ _ _ _ => rfl⟩
    unfold Execute.trace1
    rw [if_neg (not_not.mpr h1)]
  | readError f x e hft h1 h2 =>
    refine ⟨fun h => ?_, fun _ => ⟨by simp, posts_trace2 p⟩, fun _ _ h _ => ?_⟩
    · cases hft with
      | rendered h3 _ => exact absurd h h3
      | default _ h4 => rw [hf] at h4; cases h4
    · have h3 := h h1
      rw [h2] at h3
      cases h3
  | renderError f s text e hft hs ht _ =>
    refine ⟨fun h => ?_, fun h => ?_, fun h _ _ _ => ?_⟩
    · cases hft with
      | rendered h3 _ => exact absurd h h3
      | default _ h4 => rw [hf] at h4; cases h4
    · rw [← hs.template.1] at h
      exact absurd h ht
    · rw [← hs.template.1] at h
      exact absurd h ht
  | sentTemplate f s text hft hs ht _ =>
    refine ⟨fun h => ?_, fun h => ?_, fun h _ _ _ => ?_⟩
    · cases hft with
      | rendered h3 _ => exact absurd h h3
      | default _ h4 => rw [hf] at h4; cases h4
    · rw [← hs.template.1] at h
      exact absurd h ht
    · rw [← hs.template.1] at h
      exact absurd h ht
  | messagePanic f s hft hs ht _ =>
    refine ⟨fun h => ?_, fun _ => ⟨by simp, posts_trace2 p⟩, fun _ _ _ _ => rfl⟩
    cases hft with
    | rendered h3 _ => exact absurd h h3
    | default _ h4 => rw [hf] at h4; cases h4
  | sentDefault f s text hft hs ht h5 =>
    rw [hm] at h5
    cases h5


/-- C17: for a SHA of 1 to 7 bytes `detectRef` does not return (the slice
`SHA[:8]` is out of range), and neither do `message` and `fallback`;
`Execute` then panics at line 64 when `Settings.Fallback` is empty, never
returns `nil` nor posts when the primary text would be the default one, and
panics at line 104 when it gets there. For an empty SHA or one of at least 8
bytes `detectRef`, `message` and `fallback` return and `Execute` does not
panic. -/
theorem detectRef_short_sha (env : Env) (p : Plugin) :
    (1 ≤ p.pipeline.Commit.SHA.length ∧ p.pipeline.Commit.SHA.length ≤ 7 →
      detectRef p.pipeline.Build p.pipeline.Commit = none ∧
      message p.pipeline = none ∧ fallback p.pipeline = none ∧
      (p.settings.Fallback = [] →
        (p.Execute env).ret = .panicked ∧ (p.Execute env).trace = []) ∧
      (Execute.activeTemplate env p.settings.Template p.settings.TemplateFile = [] →
        (p.Execute env).ret ≠ .returned none ∧ posts (p.Execute env).trace = []) ∧
      (Execute.activeTemplate env p.settings.Template p.settings.TemplateFile = [] →
        (env.RenderTrim p.settings.Fallback p.pipeline).2 = none →
        (p.settings.TemplateFile ≠ [] → (env.ReadFile p.settings.TemplateFile).2 = none) →
        p.settings.Fallback ≠ [] → (p.Execute env).ret = .panicked)) ∧
    (p.pipeline.Commit.SHA = [] ∨ 8 ≤ p.pipeline.Commit.SHA.length →
      detectRef p.pipeline.Build p.pipeline.Commit ≠ none ∧
      message p.pipeline ≠ none ∧ fallback p.pipeline ≠ none ∧
      (p.Execute env).ret ≠ .panicked) := by
  constructor
  · intro h
    have hd := (detectRef_eq_none_iff p.pipeline.Build p.pipeline.Commit).mpr h
    exact ⟨hd, (message_eq_none_iff _).mpr hd, (fallback_eq_none_iff _).mpr hd,
      Execute_of_detectRef_none env p hd⟩
  · intro h
    have hd : detectRef p.pipeline.Build p.pipeline.Commit ≠ none := by
      intro hn
      have h2 := (detectRef_eq_none_iff _ _).mp hn
      rcases h with h | h
      · rw [h] at h2
        simp at h2
      · omega
    exact ⟨hd, fun hn => hd ((message_eq_none_iff _).mp hn),
      fun hn => hd ((fallback_eq_none_iff _).mp hn), fun hn => hd (Execute_panicked env p hn)⟩

theorem detectRef_short_sha_witness :
    detectRef examplePipeline.Build { examplePipeline.Commit with SHA := lit "abc" } = none ∧
    (Plugin.Execute exampleEnv
      ⟨exampleSettings, { examplePipeline with Commit := ⟨lit "abc", lit "Al"⟩ }⟩).ret
      = .panicked ∧
    (Plugin.Execute exampleEnv ⟨exampleSettings, examplePipeline⟩).ret ≠ .panicked :=
  ⟨((detectRef_short_sha exampleEnv
      ⟨exampleSettings, { examplePipeline with Commit := ⟨lit "abc", lit "Al"⟩ }⟩).1
      (by decide)).1,
   (((detectRef_short_sha exampleEnv
      ⟨exampleSettings, { examplePipeline with Commit := ⟨lit "abc", lit "Al"⟩ }⟩).1
      (by decide)).2.2.2.1 rfl).1,
   ((detectRef_short_sha exampleEnv ⟨exampleSettings, examplePipeline⟩).2
      (Or.inr (by decide))).2.2.2⟩

/-! ### The order of the two texts -/

/-- C18, as stated, fails: with a template file that cannot be read and a
fallback template that does not render, `Execute` returns the error of the
fallback template, not the error of the read, and the only collaborator call
is the rendering of the fallback template. -/
theorem Execute_error_order_example :
    (exampleFailEnv.ReadFile (lit "slack.tpl")).2 = some (.new (lit "no such file")) ∧
    (exampleFailEnv.RenderTrim (lit "\x7b\x7b") examplePipeline).2
      = some (.new (lit "parse error")) ∧
    (Plugin.Execute exampleFailEnv
        ⟨{ exampleSettings with TemplateFile := lit "slack.tpl", Fallback := lit "\x7b\x7b" },
          examplePipeline⟩).ret
      = .returned (some (.wrapf (lit "could not create fallback message: ")
          (.new (lit "parse error")))) ∧
    (Plugin.Execute exampleFailEnv
        ⟨{ exampleSettings with TemplateFile := lit "slack.tpl", Fallback := lit "\x7b\x7b" },
          examplePipeline⟩).ret
      ≠ .returned (some (.wrapf (lit "could not read template file: ")
          (.new (lit "no such file")))) ∧
    (Plugin.Execute exampleFailEnv
        ⟨{ exampleSettings with TemplateFile := lit "slack.tpl", Fallback := lit "\x7b\x7b" },
          examplePipeline⟩).trace = [.render (lit "\x7b\x7b")] := by
  decide

/-- C18, amended: the fallback text is determined before the primary text.
With a template file that is set and cannot be read and a fallback template
that is set and does not render, `Execute` returns the error of the fallback
template, which is not the error of the read; it renders the fallback
template, does not read the file, and leaves the settings as they were. -/
theorem Execute_fallback_error_first (env : Env) (p : Plugin) (x y : GoString)
    (e1 e2 : GoError)
    (_htf : p.settings.TemplateFile ≠ [])
    (_hrd : env.ReadFile p.settings.TemplateFile = (y, some e2))
    (hfb : p.settings.Fallback ≠ [])
    (hr : env.RenderTrim p.settings.Fallback p.pipeline = (x, some e1)) :
    (p.Execute env).ret
      = .returned (some (.wrapf (lit "could not create fallback message: ") e1)) ∧
    (p.Execute env).ret
      ≠ .returned (some (.wrapf (lit "could not read template file: ") e2)) ∧
    (p.Execute env).trace = [.render p.settings.Fallback] ∧
    (∀ path, Event.read path ∉ (p.Execute env).trace) ∧
    (p.Execute env).settings = p.settings := by
  have hne : lit "could not create fallback message: " ≠ lit "could not read template file: " := by
    decide
  have hres : p.Execute env =
      { settings := p.settings, attachment := Execute.attachment1 p, msg := none,
        trace := Execute.trace1 p,
        ret := .returned (some (.wrapf (lit "could not create fallback message: ") e1)) } := by
    rw [Execute_eq_staged]
    unfold Execute.staged
    have h1 : Execute.stage1 env p = .inl (Execute.attachment1 p,
        .returned (some (.wrapf (lit "could not create fallback message: ") e1))) := by
      unfold Execute.stage1 templateMessage
      rw [if_pos hfb, hr]
    rw [h1]
  rw [hres]
  have ht : Execute.trace1 p = [.render p.settings.Fallback] := by
    unfold Execute.trace1
    rw [if_pos hfb]
  refine ⟨rfl, ?_, ht, fun path => ?_, rfl⟩
  · intro h
    simp only [Outcome.returned.injEq, Option.some.injEq, GoError.wrapf.injEq] at h
    exact hne h.1
  · show Event.read path ∉ Execute.trace1 p
    exact not_read_mem_trace1 p path

theorem Execute_fallback_error_first_witness :
    (Plugin.Execute exampleFailEnv
        ⟨{ exampleSettings with TemplateFile := lit "slack.tpl", Fallback := lit "\x7b\x7b" },
          examplePipeline⟩).ret
      = .returned (some (.wrapf (lit "could not create fallback message: ")
          (.new (lit "parse error")))) :=
  (Execute_fallback_error_first exampleFailEnv
    ⟨{ exampleSettings with TemplateFile := lit "slack.tpl", Fallback := lit "\x7b\x7b" },
      examplePipeline⟩ [] [] (.new (lit "parse error")) (.new (lit "no such file"))
    (by decide) rfl (by decide) (by decide)).1


/-! ### When `Execute` returns an error -/

/-- C19: for a SHA that is empty or has at least 8 bytes, `Execute` returns
(it does not panic), and it returns an error exactly when the fallback
template is set and does not render, or the template file is set and cannot
be read, or the active template (the file content when a file is set, else
`Settings.Template`) is not empty and does not render, or the webhook sender
is called and fails. With no template, template file and fallback template
and a sender that succeeds it returns `nil`, whatever the other fields are. -/
theorem Execute_error_iff (env : Env) (p : Plugin)
    (hsha : p.pipeline.Commit.SHA = [] ∨ 8 ≤ p.pipeline.Commit.SHA.length) :
    ((∃ e, (p.Execute env).ret = .returned (some e)) ↔
      ((p.settings.Fallback ≠ [] ∧
          (templateMessage env p.settings.Fallback p.pipeline).2 ≠ none) ∨
       (p.settings.TemplateFile ≠ [] ∧ (env.ReadFile p.settings.TemplateFile).2 ≠ none) ∨
       (Execute.activeTemplate env p.settings.Template p.settings.TemplateFile ≠ [] ∧
          (templateMessage env
            (Execute.activeTemplate env p.settings.Template p.settings.TemplateFile)
            p.pipeline).2 ≠ none) ∨
       (∃ url m, (url, m) ∈ posts (p.Execute env).trace ∧ env.PostWebhook url m ≠ none))) ∧
    ((p.Execute env).ret = .returned none ∨ ∃ e, (p.Execute env).ret = .returned (some e)) ∧
    (p.settings.TemplateFile = [] → p.settings.Template = [] → p.settings.Fallback = [] →
      (∀ url m, env.PostWebhook url m = none) → (p.Execute env).ret = .returned none) := by
  have hd : detectRef p.pipeline.Build p.pipeline.Commit ≠ none := by
    intro hn
    have h2 := (detectRef_eq_none_iff _ _).mp hn
    rcases hsha with h | h
    · rw [h] at h2
      simp at h2
    · omega
  have hret : (p.Execute env).ret = .returned none ∨
      ∃ e, (p.Execute env).ret = .returned (some e) := by
    rcases hr : (p.Execute env).ret with (_ | e) | _
    · exact Or.inl rfl
    · exact Or.inr ⟨e, rfl⟩
    · exact absurd (Execute_panicked env p hr) hd
  have hiff : (∃ e, (p.Execute env).ret = .returned (some e)) ↔
      ((p.settings.Fallback ≠ [] ∧
          (templateMessage env p.settings.Fallback p.pipeline).2 ≠ none) ∨
       (p.settings.TemplateFile ≠ [] ∧ (env.ReadFile p.settings.TemplateFile).2 ≠ none) ∨
       (Execute.activeTemplate env p.settings.Template p.settings.TemplateFile ≠ [] ∧
          (templateMessage env
            (Execute.activeTemplate env p.settings.Template p.settings.TemplateFile)
            p.pipeline).2 ≠ none) ∨
       (∃ url m, (url, m) ∈ posts (p.Execute env).trace ∧ env.PostWebhook url m ≠ none)) := by
    have hcause := posts_ne_nil env p
    have hp := Execute_path env p
    generalize p.Execute env = r at hp hcause
    unfold Execute.activeTemplate templateMessage
    cases hp with
    | fallbackRenderError x e h1 h2 =>
      exact ⟨fun _ => Or.inl ⟨h1, by rw [h2]; simp⟩, fun _ => ⟨_, rfl⟩⟩
    | fallbackPanic _ h2 => exact absurd ((fallback_eq_none_iff _).mp h2) hd
    | readError f x e _ h1 h2 =>
      exact ⟨fun _ => Or.inr (Or.inl ⟨h1, by rw [h2]; simp⟩), fun _ => ⟨_, rfl⟩⟩
    | renderError f s text e _ hs ht hr =>
      refine ⟨fun _ => Or.inr (Or.inr (Or.inl ?_)), fun _ => ⟨_, rfl⟩⟩
      rw [← hs.template.1]
      exact ⟨ht, by rw [hr]; simp⟩
    | messagePanic f s _ _ _ h2 => exact absurd ((message_eq_none_iff _).mp h2) hd
    | sentTemplate f s text hf hs ht hr =>
      have hc := hcause (by simp [posts_append, posts_trace2, posts])
      simp only [posts_append, posts_trace2, posts, List.nil_append, List.mem_singleton,
        Prod.mk.injEq]
      constructor
      · rintro ⟨e, he⟩
        refine Or.inr (Or.inr (Or.inr ⟨_, _, ⟨rfl, rfl⟩, ?_⟩))
        intro hn
        simp [Execute.send, hn] at he
      · rintro (⟨h1, h2⟩ | ⟨h1, h2⟩ | ⟨h1, h2⟩ | ⟨url, m, ⟨rfl, rfl⟩, h2⟩)
        · exact absurd (hc.1 h1) h2
        · exact absurd (hc.2.1 h1) h2
        · exact absurd (hc.2.2 h1) h2
        · rcases hpw : env.PostWebhook s.Webhook
              (Execute.msg p { Execute.attachment1 p with Fallback := f }) with _ | err
          · exact absurd hpw h2
          · exact ⟨.wrapf (lit "could not send webhook: ") err, by simp [Execute.send, hpw]⟩
    | sentDefault f s text hf hs ht hm =>
      have hc := hcause (by simp [posts_append, posts_trace2, posts])
      simp only [posts_append, posts_trace2, posts, List.nil_append, List.mem_singleton,
        Prod.mk.injEq]
      constructor
      · rintro ⟨e, he⟩
        refine Or.inr (Or.inr (Or.inr ⟨_, _, ⟨rfl, rfl⟩, ?_⟩))
        intro hn
        simp [Execute.send, hn] at he
      · rintro (⟨h1, h2⟩ | ⟨h1, h2⟩ | ⟨h1, h2⟩ | ⟨url, m, ⟨rfl, rfl⟩, h2⟩)
        · exact absurd (hc.1 h1) h2
        · exact absurd (hc.2.1 h1) h2
        · exact absurd (hc.2.2 h1) h2
        · rcases hpw : env.PostWebhook s.Webhook
              (Execute.msg p { Execute.attachment1 p with Fallback := f }) with _ | err
          · exact absurd hpw h2
          · exact ⟨.wrapf (lit "could not send webhook: ") err, by simp [Execute.send, hpw]⟩
  refine ⟨hiff, hret, fun htf ht hfb hpost => ?_⟩
  rcases hret with h | h
  · exact h
  · rcases hiff.mp h with ⟨h1, _⟩ | ⟨h1, _⟩ | ⟨h1, _⟩ | ⟨url, m, _, h2⟩
    · exact absurd hfb h1
    · exact absurd htf h1
    · unfold Execute.activeTemplate at h1
      rw [if_neg (not_not.mpr htf)] at h1
      exact absurd ht h1
    · exact absurd (hpost url m) h2

theorem Execute_error_iff_witness :
    (Plugin.Execute exampleEnv ⟨exampleSettings, examplePipeline⟩).ret = .returned none ∧
    ∃ e, (Plugin.Execute exampleFailEnv
        ⟨{ exampleSettings with Template := lit "\x7b\x7b" }, examplePipeline⟩).ret
      = .returned (some e) :=
  ⟨(Execute_error_iff exampleEnv ⟨exampleSettings, examplePipeline⟩ (Or.inr (by decide))).2.2
      rfl rfl rfl (fun _ _ => rfl),
   (Execute_error_iff exampleFailEnv
      ⟨{ exampleSettings with Template := lit "\x7b\x7b" }, examplePipeline⟩
      (Or.inr (by decide))).1.mpr (Or.inr (Or.inr (Or.inl ⟨by decide, by decide⟩)))⟩

end DroneSlack
